import Mathlib

/-!
# The document-store access layer of `internal/database/database.go`

A shallow embedding of the Cosmos DB facade (`cosmosDBClient`) and of the
properties its specification states about it.

* The Cosmos SDK (`azcosmos.ContainerClient`) is outside the repository.  A
  container is therefore a record of functions over an arbitrary world state
  `σ`: every SDK call maps the current state to a response and a next state, so
  concurrent writers, faults and time are all behaviours of the world.
* Every SDK call and every invocation of a mutation callback is appended to a
  trace, so that "how many calls were made" is a statement about that trace.
* `encoding/json` is a parameter (a codec over an arbitrary payload type), and
  a document carries exactly the fields the facade touches plus its remaining
  members.
* A mutation callback is a function from the fetched document to the edited
  document and the flag it returns.
-/

namespace Database

/-! ## Errors -/

/-- Error values created outside this package: by the Cosmos SDK, by the
transport underneath it, or by `encoding/json`.  None of them can be the
package's own `ErrNotFound` value. -/
inductive SdkError where
  /-- A `*azcore.ResponseError` carrying an HTTP status code. -/
  | ResponseError (StatusCode : Nat)
  /-- Any other error value (transport failure, syntax error, ...). -/
  | other (text : String)
  /-- An error whose `Unwrap` yields `inner`. -/
  | wrapping (text : String) (inner : SdkError)
  deriving DecidableEq, Repr

/-- Error values as the facade returns them. -/
inductive GoError where
  /-- An error received from the SDK or the codec. -/
  | sdk (e : SdkError)
  /-- The sentinel `var ErrNotFound = errors.New("not found")`. -/
  | ErrNotFound
  /-- The value `fmt.Errorf("<what> '%s': %w", key, inner)`. -/
  | Errorf (what : String) (key : String) (inner : GoError)
  deriving DecidableEq, Repr

/-- The status code `errors.As(err, &responseError)` finds in an SDK error:
the first `*azcore.ResponseError` of the chain. -/
def SdkError.asResponseError : SdkError → Option Nat
  | .ResponseError c => some c
  | .other _ => none
  | .wrapping _ e => e.asResponseError

/-- The status code found by `errors.As(err, &responseError)`, if any. -/
def GoError.asResponseError : GoError → Option Nat
  | .sdk e => e.asResponseError
  | .ErrNotFound => none
  | .Errorf _ _ e => e.asResponseError

/-- The test `errors.Is(err, ErrNotFound)`. -/
def GoError.isErrNotFound : GoError → Bool
  | .sdk _ => false
  | .ErrNotFound => true
  | .Errorf _ _ e => e.isErrNotFound

/-- The constant `http.StatusNotFound`. -/
def StatusNotFound : Nat := 404

/-- The constant `http.StatusPreconditionFailed`. -/
def StatusPreconditionFailed : Nat := 412

/-- The function `isResponseError(err, statusCode)`. -/
def isResponseError (err : GoError) (statusCode : Nat) : Bool :=
  match err.asResponseError with
  | some c => c == statusCode
  | none => false

/-! ## Strings and partition keys -/

/-- The lower-case column of `unicode.CaseRanges`, the table behind
`unicode.ToLower`, in run form: an entry `(lo, hi, lower, stride)` says that the
runes `lo`, `lo + stride`, ..., `hi` have the lower-case forms `lower`,
`lower + stride`, ...  These are the 1433 simple lower-case mappings of the
Unicode Character Database, from which Go generates its table (Unicode 14.0
and 15.0 list the same ones); the first entry is the ASCII range `A`..`Z`. -/
def caseRuns : List (Nat × Nat × Nat × Nat) :=
  [(65, 90, 97, 1), (192, 214, 224, 1), (216, 222, 248, 1), (256, 302, 257, 2),
   (304, 304, 105, 1), (306, 310, 307, 2), (313, 327, 314, 2), (330, 374, 331, 2),
   (376, 376, 255, 1), (377, 381, 378, 2), (385, 385, 595, 1), (386, 388, 387, 2),
   (390, 390, 596, 1), (391, 391, 392, 1), (393, 394, 598, 1), (395, 395, 396, 1),
   (398, 398, 477, 1), (399, 399, 601, 1), (400, 400, 603, 1), (401, 401, 402, 1),
   (403, 403, 608, 1), (404, 404, 611, 1), (406, 406, 617, 1), (407, 407, 616, 1),
   (408, 408, 409, 1), (412, 412, 623, 1), (413, 413, 626, 1), (415, 415, 629, 1),
   (416, 420, 417, 2), (422, 422, 640, 1), (423, 423, 424, 1), (425, 425, 643, 1),
   (428, 428, 429, 1), (430, 430, 648, 1), (431, 431, 432, 1), (433, 434, 650, 1),
   (435, 437, 436, 2), (439, 439, 658, 1), (440, 440, 441, 1), (444, 444, 445, 1),
   (452, 452, 454, 1), (453, 453, 454, 1), (455, 455, 457, 1), (456, 456, 457, 1),
   (458, 458, 460, 1), (459, 475, 460, 2), (478, 494, 479, 2), (497, 497, 499, 1),
   (498, 500, 499, 2), (502, 502, 405, 1), (503, 503, 447, 1), (504, 542, 505, 2),
   (544, 544, 414, 1), (546, 562, 547, 2), (570, 570, 11365, 1), (571, 571, 572, 1),
   (573, 573, 410, 1), (574, 574, 11366, 1), (577, 577, 578, 1), (579, 579, 384, 1),
   (580, 580, 649, 1), (581, 581, 652, 1), (582, 590, 583, 2), (880, 882, 881, 2),
   (886, 886, 887, 1), (895, 895, 1011, 1), (902, 902, 940, 1), (904, 906, 941, 1),
   (908, 908, 972, 1), (910, 911, 973, 1), (913, 929, 945, 1), (931, 939, 963, 1),
   (975, 975, 983, 1), (984, 1006, 985, 2), (1012, 1012, 952, 1), (1015, 1015, 1016, 1),
   (1017, 1017, 1010, 1), (1018, 1018, 1019, 1), (1021, 1023, 891, 1), (1024, 1039, 1104, 1),
   (1040, 1071, 1072, 1), (1120, 1152, 1121, 2), (1162, 1214, 1163, 2), (1216, 1216, 1231, 1),
   (1217, 1229, 1218, 2), (1232, 1326, 1233, 2), (1329, 1366, 1377, 1), (4256, 4293, 11520, 1),
   (4295, 4295, 11559, 1), (4301, 4301, 11565, 1), (5024, 5103, 43888, 1), (5104, 5109, 5112, 1),
   (7312, 7354, 4304, 1), (7357, 7359, 4349, 1), (7680, 7828, 7681, 2), (7838, 7838, 223, 1),
   (7840, 7934, 7841, 2), (7944, 7951, 7936, 1), (7960, 7965, 7952, 1), (7976, 7983, 7968, 1),
   (7992, 7999, 7984, 1), (8008, 8013, 8000, 1), (8025, 8031, 8017, 2), (8040, 8047, 8032, 1),
   (8072, 8079, 8064, 1), (8088, 8095, 8080, 1), (8104, 8111, 8096, 1), (8120, 8121, 8112, 1),
   (8122, 8123, 8048, 1), (8124, 8124, 8115, 1), (8136, 8139, 8050, 1), (8140, 8140, 8131, 1),
   (8152, 8153, 8144, 1), (8154, 8155, 8054, 1), (8168, 8169, 8160, 1), (8170, 8171, 8058, 1),
   (8172, 8172, 8165, 1), (8184, 8185, 8056, 1), (8186, 8187, 8060, 1), (8188, 8188, 8179, 1),
   (8486, 8486, 969, 1), (8490, 8490, 107, 1), (8491, 8491, 229, 1), (8498, 8498, 8526, 1),
   (8544, 8559, 8560, 1), (8579, 8579, 8580, 1), (9398, 9423, 9424, 1), (11264, 11311, 11312, 1),
   (11360, 11360, 11361, 1), (11362, 11362, 619, 1), (11363, 11363, 7549, 1),
   (11364, 11364, 637, 1), (11367, 11371, 11368, 2), (11373, 11373, 593, 1),
   (11374, 11374, 625, 1), (11375, 11375, 592, 1), (11376, 11376, 594, 1),
   (11378, 11378, 11379, 1), (11381, 11381, 11382, 1), (11390, 11391, 575, 1),
   (11392, 11490, 11393, 2), (11499, 11501, 11500, 2), (11506, 11506, 11507, 1),
   (42560, 42604, 42561, 2), (42624, 42650, 42625, 2), (42786, 42798, 42787, 2),
   (42802, 42862, 42803, 2), (42873, 42875, 42874, 2), (42877, 42877, 7545, 1),
   (42878, 42886, 42879, 2), (42891, 42891, 42892, 1), (42893, 42893, 613, 1),
   (42896, 42898, 42897, 2), (42902, 42920, 42903, 2), (42922, 42922, 614, 1),
   (42923, 42923, 604, 1), (42924, 42924, 609, 1), (42925, 42925, 620, 1),
   (42926, 42926, 618, 1), (42928, 42928, 670, 1), (42929, 42929, 647, 1),
   (42930, 42930, 669, 1), (42931, 42931, 43859, 1), (42932, 42946, 42933, 2),
   (42948, 42948, 42900, 1), (42949, 42949, 642, 1), (42950, 42950, 7566, 1),
   (42951, 42953, 42952, 2), (42960, 42960, 42961, 1), (42966, 42968, 42967, 2),
   (42997, 42997, 42998, 1), (65313, 65338, 65345, 1), (66560, 66599, 66600, 1),
   (66736, 66771, 66776, 1), (66928, 66938, 66967, 1), (66940, 66954, 66979, 1),
   (66956, 66962, 66995, 1), (66964, 66965, 67003, 1), (68736, 68786, 68800, 1),
   (71840, 71871, 71872, 1), (93760, 93791, 93792, 1), (125184, 125217, 125218, 1)]

/-- Whether a run of the case table gives the rune with code `n` a lower-case
form. -/
def covers (r : Nat × Nat × Nat × Nat) (n : Nat) : Bool :=
  r.1 ≤ n && n ≤ r.2.1 && (n - r.1) % r.2.2.2 == 0

/-- The function `unicode.ToLower`: the lower-case form the case table gives
the rune, and the rune itself when the table has none for it. -/
def toLowerRune (c : Char) : Char :=
  match caseRuns.find? (fun r => covers r c.toNat) with
  | some r => Char.ofNat (r.2.2.1 + (c.toNat - r.1))
  | none => c

/-- The function `strings.ToLower`: `unicode.ToLower` applied to every rune.  A
`String` is a sequence of runes, that is, the text is valid UTF-8. -/
def ToLower (s : String) : String := ⟨s.data.map toLowerRune⟩

/-- The type `azcosmos.PartitionKey`, built by `azcosmos.NewPartitionKeyString`. -/
structure PartitionKey where
  value : String
  deriving DecidableEq, Repr

/-- The constructor `azcosmos.NewPartitionKeyString`. -/
def NewPartitionKeyString (s : String) : PartitionKey := ⟨s⟩

/-- `NewPartitionKey` creates a partition key from an Azure subscription ID. -/
def NewPartitionKey (subscriptionID : String) : PartitionKey :=
  NewPartitionKeyString (ToLower subscriptionID)

/-- The well-known partition of the Operations container. -/
def operationsPartitionKey : String := "workaround"

/-! ## Documents -/

/-- The type `azcore.ETag`: a version token, of which only equality matters. -/
abbrev ETag := Nat

/-- The members of a document the facade never looks at. -/
abbrev Fields := List (String × String)

/-- The type `azcorearm.ResourceID`, reduced to what the facade reads: the
subscription it belongs to and its textual form `String()`. -/
structure ResourceID where
  SubscriptionID : String
  String : String
  deriving DecidableEq, Repr

/-- The type `ResourceDocument`. -/
structure ResourceDocument where
  ID : String
  CosmosETag : ETag
  ResourceID : ResourceID
  PartitionKey : String
  rest : Fields
  deriving DecidableEq, Repr

/-- The type `OperationDocument`. -/
structure OperationDocument where
  ID : String
  CosmosETag : ETag
  rest : Fields
  deriving DecidableEq, Repr

/-- The type `SubscriptionDocument`. -/
structure SubscriptionDocument where
  ID : String
  CosmosETag : ETag
  rest : Fields
  deriving DecidableEq, Repr

/-- The functions `json.Marshal` and `json.Unmarshal` at the three document
types, over a payload type `B`.  `Unmarshal` receives the value the target
pointer held before the call (`none` for a nil pointer), because decoding into
a non-nil pointer fills the existing document.  Items of a container are JSON
objects, so a successful decoding always yields a document. -/
structure JSON (B : Type) where
  MarshalResource : ResourceDocument → Except SdkError B
  UnmarshalResource : B → Option ResourceDocument → Except SdkError ResourceDocument
  MarshalOperation : OperationDocument → Except SdkError B
  UnmarshalOperation : B → Option OperationDocument → Except SdkError OperationDocument
  MarshalSubscription : SubscriptionDocument → Except SdkError B
  UnmarshalSubscription : B → Option SubscriptionDocument → Except SdkError SubscriptionDocument

/-! ## The store and the trace of calls -/

/-- The containers of the database, by the identifier given to `NewContainer`. -/
inductive ContainerID where
  | Billing | Locks | Operations | Resources | Subscriptions | PartitionKeys
  deriving DecidableEq, Repr

/-- The type `azcosmos.QueryOptions`. -/
structure QueryOptions where
  PageSizeHint : Int
  ContinuationToken : Option String
  QueryParameters : List (String × String)
  deriving DecidableEq, Repr

/-- The type `azcosmos.ItemOptions`; `none` is the zero value. -/
structure ItemOptions where
  IfMatchEtag : Option ETag
  deriving DecidableEq, Repr

/-- A pager, as the outcomes of its successive `NextPage` calls; `More()` holds
as long as outcomes remain. -/
abbrev Pager (B : Type) := List (Except SdkError (List B))

/-- The type `azcosmos.ContainerClient` over a world state `σ`. -/
structure ContainerClient (σ B : Type) where
  id : ContainerID
  NewQueryItemsPager : String → PartitionKey → QueryOptions → σ → Pager B × σ
  ReadItem : PartitionKey → String → σ → Except SdkError B × σ
  CreateItem : PartitionKey → B → σ → Option SdkError × σ
  ReplaceItem : PartitionKey → String → B → ItemOptions → σ → Option SdkError × σ
  DeleteItem : PartitionKey → String → σ → Option SdkError × σ

/-- What the facade does that is visible from outside: its SDK calls, with
their arguments and (for writes) their outcome, and callback invocations. -/
inductive Event (B : Type) where
  | NewQueryItemsPager (c : ContainerID) (query : String) (pk : PartitionKey) (opt : QueryOptions)
  | ReadItem (c : ContainerID) (pk : PartitionKey) (itemId : String)
  | CreateItem (c : ContainerID) (pk : PartitionKey) (data : B) (err : Option SdkError)
  | ReplaceItem (c : ContainerID) (pk : PartitionKey) (itemId : String) (data : B)
      (options : ItemOptions) (err : Option SdkError)
  | DeleteItem (c : ContainerID) (pk : PartitionKey) (itemId : String) (err : Option SdkError)
  | upsertPartitionKey (partitionKey : String) (err : Option GoError)
  | callback

/-- The world state together with the trace of what the facade did so far. -/
structure World (σ B : Type) where
  state : σ
  trace : List (Event B)

/-- The type `cosmosDBClient`.  `upsertPartitionKey` is the helper of the
partition-key index, already applied to the `partitionKeys` container. -/
structure cosmosDBClient (σ B : Type) where
  resources : ContainerClient σ B
  operations : ContainerClient σ B
  subscriptions : ContainerClient σ B
  partitionKeys : ContainerClient σ B
  upsertPartitionKey : String → σ → Option GoError × σ

namespace ContainerClient

variable {σ B : Type}

/-- A traced `NewQueryItemsPager` call. -/
def queryItems (c : ContainerClient σ B) (query : String) (pk : PartitionKey)
    (opt : QueryOptions) (w : World σ B) : Pager B × World σ B :=
  let r := c.NewQueryItemsPager query pk opt w.state
  (r.1, ⟨r.2, w.trace ++ [Event.NewQueryItemsPager c.id query pk opt]⟩)

/-- A traced `ReadItem` call. -/
def readItem (c : ContainerClient σ B) (pk : PartitionKey) (itemId : String)
    (w : World σ B) : Except SdkError B × World σ B :=
  let r := c.ReadItem pk itemId w.state
  (r.1, ⟨r.2, w.trace ++ [Event.ReadItem c.id pk itemId]⟩)

/-- A traced `CreateItem` call. -/
def createItem (c : ContainerClient σ B) (pk : PartitionKey) (data : B)
    (w : World σ B) : Option SdkError × World σ B :=
  let r := c.CreateItem pk data w.state
  (r.1, ⟨r.2, w.trace ++ [Event.CreateItem c.id pk data r.1]⟩)

/-- A traced `ReplaceItem` call. -/
def replaceItem (c : ContainerClient σ B) (pk : PartitionKey) (itemId : String) (data : B)
    (options : ItemOptions) (w : World σ B) : Option SdkError × World σ B :=
  let r := c.ReplaceItem pk itemId data options w.state
  (r.1, ⟨r.2, w.trace ++ [Event.ReplaceItem c.id pk itemId data options r.1]⟩)

/-- A traced `DeleteItem` call. -/
def deleteItem (c : ContainerClient σ B) (pk : PartitionKey) (itemId : String)
    (w : World σ B) : Option SdkError × World σ B :=
  let r := c.DeleteItem pk itemId w.state
  (r.1, ⟨r.2, w.trace ++ [Event.DeleteItem c.id pk itemId r.1]⟩)

end ContainerClient

/-- A traced invocation of a mutation callback. -/
def World.invoked {σ B : Type} (w : World σ B) : World σ B :=
  ⟨w.state, w.trace ++ [Event.callback]⟩

/-- A traced call of `upsertPartitionKey(ctx, d.partitionKeys, partitionKey)`. -/
def cosmosDBClient.upsert {σ B : Type} (d : cosmosDBClient σ B) (partitionKey : String)
    (w : World σ B) : Option GoError × World σ B :=
  let r := d.upsertPartitionKey partitionKey w.state
  (r.1, ⟨r.2, w.trace ++ [Event.upsertPartitionKey partitionKey r.1]⟩)

/-! ## The facade -/

section Facade

variable {σ B : Type}

/-- The query text of `GetResourceDoc`. -/
def GetResourceDoc.query : String :=
  "SELECT * FROM c WHERE STRINGEQUALS(c.key, @resourceId, true)"

/-- The query options of `GetResourceDoc`: page size hint 1 and the identifier
as the `@resourceId` parameter. -/
def GetResourceDoc.opt (resourceID : ResourceID) : QueryOptions :=
  ⟨1, none, [("@resourceId", resourceID.String)]⟩

/-- The inner loop of `GetResourceDoc`: `json.Unmarshal(item, &doc)` for every
item of one page. -/
def GetResourceDoc.items (J : JSON B) (resourceID : ResourceID) :
    List B → Option ResourceDocument → Except GoError (Option ResourceDocument)
  | [], doc => .ok doc
  | item :: items, doc =>
    match J.UnmarshalResource item doc with
    | .error err =>
      .error (.Errorf "failed to unmarshal Resources container item for" resourceID.String (.sdk err))
    | .ok doc => GetResourceDoc.items J resourceID items (some doc)

/-- The outer loop of `GetResourceDoc`: `for queryPager.More()`. -/
def GetResourceDoc.pages (J : JSON B) (resourceID : ResourceID) :
    Pager B → Option ResourceDocument → Except GoError (Option ResourceDocument)
  | [], doc => .ok doc
  | .error err :: _, _ =>
    .error (.Errorf "failed to advance page while querying Resources container for"
      resourceID.String (.sdk err))
  | .ok queryResponse :: queryPager, doc =>
    match GetResourceDoc.items J resourceID queryResponse doc with
    | .error err => .error err
    | .ok doc => GetResourceDoc.pages J resourceID queryPager doc

/-- `GetResourceDoc` retrieves a resource document from the "resources" DB using resource ID. -/
def GetResourceDoc (d : cosmosDBClient σ B) (J : JSON B) (resourceID : ResourceID)
    (w : World σ B) : Except GoError ResourceDocument × World σ B :=
  let pk := NewPartitionKey resourceID.SubscriptionID
  let query := GetResourceDoc.query
  let opt := GetResourceDoc.opt resourceID
  let (queryPager, w) := d.resources.queryItems query pk opt w
  match GetResourceDoc.pages J resourceID queryPager none with
  | .error err => (.error err, w)
  | .ok (some doc) =>
    -- Replace the key field from Cosmos with the given resourceID.
    (.ok { doc with ResourceID := resourceID }, w)
  | .ok none =>
    (.error (.Errorf "failed to read Resources container item for" resourceID.String .ErrNotFound), w)

/-- `CreateResourceDoc` creates a resource document in the "resources" DB during resource
creation.  The document is returned as well, since the caller's document is edited in place. -/
def CreateResourceDoc (d : cosmosDBClient σ B) (J : JSON B) (doc : ResourceDocument)
    (w : World σ B) : (Option GoError × ResourceDocument) × World σ B :=
  -- Make sure partition key is lowercase.
  let doc := { doc with PartitionKey := ToLower doc.PartitionKey }
  match J.MarshalResource doc with
  | .error err =>
    ((some (.Errorf "failed to marshal Resources container item for" doc.ResourceID.String
      (.sdk err)), doc), w)
  | .ok data =>
    let (err, w) := d.resources.createItem (NewPartitionKey doc.PartitionKey) data w
    match err with
    | some err =>
      ((some (.Errorf "failed to create Resources container item for" doc.ResourceID.String
        (.sdk err)), doc), w)
    | none => ((none, doc), w)

/-- The loop of `UpdateResourceDoc`, by the number of tries left; `err` is the
function's `err` variable. -/
def UpdateResourceDoc.loop (d : cosmosDBClient σ B) (J : JSON B) (resourceID : ResourceID)
    (callback : ResourceDocument → Bool × ResourceDocument) (pk : PartitionKey) :
    Nat → Option GoError → World σ B → (Bool × Option GoError) × World σ B
  | 0, err, w => ((false, err), w)
  | tries + 1, _, w =>
    let (r, w) := GetResourceDoc d J resourceID w
    match r with
    | .error err => ((false, some err), w)
    | .ok doc =>
      let (changed, doc) := callback doc
      let w := w.invoked
      if !changed then ((false, none), w)
      else
        match J.MarshalResource doc with
        | .error err =>
          ((false, some (.Errorf "failed to marshal Resources container item for"
            resourceID.String (.sdk err))), w)
        | .ok data =>
          let options : ItemOptions := ⟨some doc.CosmosETag⟩
          let (err, w) := d.resources.replaceItem pk doc.ID data options w
          match err with
          | none => ((true, none), w)
          | some err =>
            let err := GoError.Errorf "failed to replace Resources container item for"
              resourceID.String (.sdk err)
            if err.asResponseError ≠ some StatusPreconditionFailed then ((false, some err), w)
            else UpdateResourceDoc.loop d J resourceID callback pk tries (some err) w

/-- `UpdateResourceDoc` updates a resource document by first fetching the document and
passing it to the provided callback for modifications to be applied. -/
def UpdateResourceDoc (d : cosmosDBClient σ B) (J : JSON B) (resourceID : ResourceID)
    (callback : ResourceDocument → Bool × ResourceDocument)
    (w : World σ B) : (Bool × Option GoError) × World σ B :=
  let pk := NewPartitionKey resourceID.SubscriptionID
  UpdateResourceDoc.loop d J resourceID callback pk 5 none w

/-- `DeleteResourceDoc` removes a resource document from the "resources" DB using resource ID. -/
def DeleteResourceDoc (d : cosmosDBClient σ B) (J : JSON B) (resourceID : ResourceID)
    (w : World σ B) : Option GoError × World σ B :=
  let pk := NewPartitionKey resourceID.SubscriptionID
  let (r, w) := GetResourceDoc d J resourceID w
  match r with
  | .error err => if err.isErrNotFound then (none, w) else (some err, w)
  | .ok doc =>
    let (err, w) := d.resources.deleteItem pk doc.ID w
    match err with
    | some err =>
      (some (.Errorf "failed to delete Resources container item for" resourceID.String
        (.sdk err)), w)
    | none => (none, w)

/-- `GetOperationDoc` retrieves the asynchronous operation document for the given
operation ID from the "operations" container. -/
def GetOperationDoc (d : cosmosDBClient σ B) (J : JSON B) (operationID : String)
    (w : World σ B) : Except GoError OperationDocument × World σ B :=
  -- Make sure lookup keys are lowercase.
  let operationID := ToLower operationID
  let pk := NewPartitionKey operationsPartitionKey
  let (response, w) := d.operations.readItem pk operationID w
  match response with
  | .error err =>
    let err : GoError :=
      if isResponseError (.sdk err) StatusNotFound then .ErrNotFound else .sdk err
    (.error (.Errorf "failed to read Operations container item for" operationID err), w)
  | .ok value =>
    match J.UnmarshalOperation value none with
    | .error err =>
      (.error (.Errorf "failed to unmarshal Operations container item for" operationID
        (.sdk err)), w)
    | .ok doc => (.ok doc, w)

/-- `CreateOperationDoc` writes an asynchronous operation document to the "operations"
container. -/
def CreateOperationDoc (d : cosmosDBClient σ B) (J : JSON B) (doc : OperationDocument)
    (w : World σ B) : (String × Option GoError) × World σ B :=
  let pk := NewPartitionKey operationsPartitionKey
  match J.MarshalOperation doc with
  | .error err =>
    (("", some (.Errorf "failed to marshal Operations container item for" doc.ID (.sdk err))), w)
  | .ok data =>
    let (err, w) := d.operations.createItem pk data w
    match err with
    | some err =>
      (("", some (.Errorf "failed to create Operations container item for" doc.ID (.sdk err))), w)
    | none => ((doc.ID, none), w)

/-- The loop of `UpdateOperationDoc`, by the number of tries left. -/
def UpdateOperationDoc.loop (d : cosmosDBClient σ B) (J : JSON B) (operationID : String)
    (callback : OperationDocument → Bool × OperationDocument) (pk : PartitionKey) :
    Nat → Option GoError → World σ B → (Bool × Option GoError) × World σ B
  | 0, err, w => ((false, err), w)
  | tries + 1, _, w =>
    let (r, w) := GetOperationDoc d J operationID w
    match r with
    | .error err => ((false, some err), w)
    | .ok doc =>
      let (changed, doc) := callback doc
      let w := w.invoked
      if !changed then ((false, none), w)
      else
        match J.MarshalOperation doc with
        | .error err =>
          ((false, some (.Errorf "failed to marshal Operations container item for"
            operationID (.sdk err))), w)
        | .ok data =>
          let options : ItemOptions := ⟨some doc.CosmosETag⟩
          let (err, w) := d.operations.replaceItem pk doc.ID data options w
          match err with
          | none => ((true, none), w)
          | some err =>
            let err := GoError.Errorf "failed to replace Operations container item for"
              operationID (.sdk err)
            if err.asResponseError ≠ some StatusPreconditionFailed then ((false, some err), w)
            else UpdateOperationDoc.loop d J operationID callback pk tries (some err) w

/-- `UpdateOperationDoc` updates an operation document by first fetching the document and
passing it to the provided callback for modifications to be applied. -/
def UpdateOperationDoc (d : cosmosDBClient σ B) (J : JSON B) (operationID : String)
    (callback : OperationDocument → Bool × OperationDocument)
    (w : World σ B) : (Bool × Option GoError) × World σ B :=
  let pk := NewPartitionKey operationsPartitionKey
  UpdateOperationDoc.loop d J operationID callback pk 5 none w

/-- `GetSubscriptionDoc` retrieves a subscription document from async DB using the
subscription ID. -/
def GetSubscriptionDoc (d : cosmosDBClient σ B) (J : JSON B) (subscriptionID : String)
    (w : World σ B) : Except GoError SubscriptionDocument × World σ B :=
  -- Make sure lookup keys are lowercase.
  let subscriptionID := ToLower subscriptionID
  let pk := NewPartitionKey subscriptionID
  let (response, w) := d.subscriptions.readItem pk subscriptionID w
  match response with
  | .error err =>
    let err : GoError :=
      if isResponseError (.sdk err) StatusNotFound then .ErrNotFound else .sdk err
    (.error (.Errorf "failed to read Subscriptions container item for" subscriptionID err), w)
  | .ok value =>
    match J.UnmarshalSubscription value none with
    | .error err =>
      (.error (.Errorf "failed to unmarshal Subscriptions container item for" subscriptionID
        (.sdk err)), w)
    | .ok doc => (.ok doc, w)

/-- `CreateSubscriptionDoc` creates/updates a subscription document in the async DB during
cluster creation/patching.  The document is returned as well, since the caller's document
is edited in place. -/
def CreateSubscriptionDoc (d : cosmosDBClient σ B) (J : JSON B) (subscriptionID : String)
    (doc : SubscriptionDocument)
    (w : World σ B) : (Option GoError × SubscriptionDocument) × World σ B :=
  -- Make sure lookup keys are lowercase.
  let doc := { doc with ID := ToLower subscriptionID }
  let pk := NewPartitionKey doc.ID
  match J.MarshalSubscription doc with
  | .error err =>
    ((some (.Errorf "failed to marshal Subscriptions container item for" doc.ID (.sdk err)),
      doc), w)
  | .ok data =>
    let (err, w) := d.subscriptions.createItem pk data w
    match err with
    | some err =>
      ((some (.Errorf "failed to create Subscriptions container item for" doc.ID (.sdk err)),
        doc), w)
    | none =>
      -- Add an item to the PartitionKeys container, which serves
      -- as a partition key index for the Resources container.
      let (err, w) := d.upsert doc.ID w
      match err with
      | some err =>
        ((some (.Errorf "failed to upsert partition keys index for" doc.ID err), doc), w)
      | none => ((none, doc), w)

/-- The loop of `UpdateSubscriptionDoc`, by the number of tries left. -/
def UpdateSubscriptionDoc.loop (d : cosmosDBClient σ B) (J : JSON B) (subscriptionID : String)
    (callback : SubscriptionDocument → Bool × SubscriptionDocument) (pk : PartitionKey) :
    Nat → Option GoError → World σ B → (Bool × Option GoError) × World σ B
  | 0, err, w => ((false, err), w)
  | tries + 1, _, w =>
    let (r, w) := GetSubscriptionDoc d J subscriptionID w
    match r with
    | .error err => ((false, some err), w)
    | .ok doc =>
      let (changed, doc) := callback doc
      let w := w.invoked
      if !changed then ((false, none), w)
      else
        match J.MarshalSubscription doc with
        | .error err =>
          ((false, some (.Errorf "failed to marshal Subscriptions container item for"
            subscriptionID (.sdk err))), w)
        | .ok data =>
          let options : ItemOptions := ⟨some doc.CosmosETag⟩
          let (err, w) := d.subscriptions.replaceItem pk doc.ID data options w
          match err with
          | none => ((true, none), w)
          | some err =>
            let err := GoError.Errorf "failed to replace Subscriptions container item for"
              subscriptionID (.sdk err)
            if err.asResponseError ≠ some StatusPreconditionFailed then ((false, some err), w)
            else UpdateSubscriptionDoc.loop d J subscriptionID callback pk tries (some err) w

/-- `UpdateSubscriptionDoc` updates a subscription document by first fetching the document
and passing it to the provided callback for modifications to be applied. -/
def UpdateSubscriptionDoc (d : cosmosDBClient σ B) (J : JSON B) (subscriptionID : String)
    (callback : SubscriptionDocument → Bool × SubscriptionDocument)
    (w : World σ B) : (Bool × Option GoError) × World σ B :=
  let pk := NewPartitionKey subscriptionID
  UpdateSubscriptionDoc.loop d J subscriptionID callback pk 5 none w

/-- Modelled from the spec: the iterator constructors
`newQueryItemsSinglePageIterator` and `newQueryItemsIterator` are defined
outside `database.go`.  An iterator is represented by its mode ("single-page
mode" or "full-drain mode") and the pager it wraps. -/
inductive DBClientIterator (B : Type) where
  | newQueryItemsSinglePageIterator (pager : Pager B)
  | newQueryItemsIterator (pager : Pager B)

/-- The query text of `ListResourceDocs`. -/
def ListResourceDocs.query : String :=
  "SELECT * FROM c WHERE STARTSWITH(c.resourceId, @prefix, true)"

/-- `ListResourceDocs` searches for resource documents that match the given resource ID
prefix.  `maxItems` is an `int32`; `max` cannot overflow, so it is taken in `Int`. -/
def ListResourceDocs (d : cosmosDBClient σ B) (prefixID : ResourceID) (maxItems : Int)
    (continuationToken : Option String)
    (w : World σ B) : DBClientIterator B × World σ B :=
  let pk := NewPartitionKey prefixID.SubscriptionID
  -- normalize negative values to -1 to be safe
  let maxItems := max maxItems (-1)
  let query := ListResourceDocs.query
  let opt : QueryOptions := ⟨maxItems, continuationToken, [("@prefix", prefixID.String ++ "/")]⟩
  let (pager, w) := d.resources.queryItems query pk opt w
  if maxItems > 0 then (.newQueryItemsSinglePageIterator pager, w)
  else (.newQueryItemsIterator pager, w)

end Facade

/-! ## Letter case -/

/-- Two runes are the same letter, possibly in different case: they are equal
or one is the lower-case form of the other. -/
def sameLetter (x y : Char) : Bool :=
  x == y || toLowerRune x == y || toLowerRune y == x

/-- Two texts differ only in letter case. -/
def differOnlyInCase : List Char → List Char → Bool
  | [], [] => true
  | x :: xs, y :: ys => sameLetter x y && differOnlyInCase xs ys
  | _, _ => false

/-- A text is in lower-case form: the case table lists a lower-case form for
none of its runes. -/
def isLower (s : String) : Bool :=
  s.data.all fun c => !(caseRuns.any fun r => covers r c.toNat)

/-- A run of the case table is well formed: its stride is 1 or 2 and the
lower-case forms it lists are runes (no surrogates, at most U+10FFFF). -/
def wellFormed (r : Nat × Nat × Nat × Nat) : Bool :=
  (r.2.2.2 == 1 || r.2.2.2 == 2) && r.1 ≤ r.2.1 &&
    (r.2.2.1 + (r.2.1 - r.1) < 55296 || (57343 < r.2.2.1 && r.2.2.1 + (r.2.1 - r.1) < 1114112))

/-- The lower-case forms listed by run `r` lie apart from the runes run `r2`
gives a lower-case form: beside it, on the other parity, or (a one-rune run)
not covered by it. -/
def apart (r r2 : Nat × Nat × Nat × Nat) : Bool :=
  r.2.2.1 + (r.2.1 - r.1) < r2.1 || r2.2.1 < r.2.2.1 ||
    (r.2.2.2 == 2 && r2.2.2.2 == 2 && r.2.2.1 % 2 != r2.1 % 2) ||
    (r.1 == r.2.1 && !covers r2 r.2.2.1)

/-! ## An in-memory store

A small model of the Cosmos service, used where a property is about what the
store holds: point reads and writes by (partition key, id), conditional
replace by version token, a fresh version token on every write, injected
faults, and another writer whose replace lands between two calls. -/

/-- The payloads of the in-memory store: the documents themselves. -/
inductive Payload where
  | resource (doc : ResourceDocument)
  | operation (doc : OperationDocument)
  | subscription (doc : SubscriptionDocument)
  | partitionKey (id : String)
  deriving DecidableEq, Repr

/-- The `id` member of a payload. -/
def Payload.id : Payload → String
  | .resource doc => doc.ID
  | .operation doc => doc.ID
  | .subscription doc => doc.ID
  | .partitionKey id => id

/-- The `_etag` member of a payload. -/
def Payload.etag : Payload → ETag
  | .resource doc => doc.CosmosETag
  | .operation doc => doc.CosmosETag
  | .subscription doc => doc.CosmosETag
  | .partitionKey _ => 0

/-- The payload with its `_etag` member set by the store. -/
def Payload.withETag (e : ETag) : Payload → Payload
  | .resource doc => .resource { doc with CosmosETag := e }
  | .operation doc => .operation { doc with CosmosETag := e }
  | .subscription doc => .subscription { doc with CosmosETag := e }
  | .partitionKey id => .partitionKey id

/-- The payload after an edit of the members the store does not interpret. -/
def Payload.edit (m : Fields → Fields) : Payload → Payload
  | .resource doc => .resource { doc with rest := m doc.rest }
  | .operation doc => .operation { doc with rest := m doc.rest }
  | .subscription doc => .subscription { doc with rest := m doc.rest }
  | .partitionKey id => .partitionKey id

/-- The codec of the in-memory store. -/
def memJSON : JSON Payload where
  MarshalResource doc := .ok (.resource doc)
  UnmarshalResource data _ :=
    match data with
    | .resource doc => .ok doc
    | _ => .error (.other "json: cannot unmarshal into ResourceDocument")
  MarshalOperation doc := .ok (.operation doc)
  UnmarshalOperation data _ :=
    match data with
    | .operation doc => .ok doc
    | _ => .error (.other "json: cannot unmarshal into OperationDocument")
  MarshalSubscription doc := .ok (.subscription doc)
  UnmarshalSubscription data _ :=
    match data with
    | .subscription doc => .ok doc
    | _ => .error (.other "json: cannot unmarshal into SubscriptionDocument")

/-- One stored item. -/
structure Stored where
  container : ContainerID
  pk : PartitionKey
  body : Payload
  deriving DecidableEq, Repr

/-- What the environment does when the next SDK call arrives. -/
inductive Step where
  /-- The call is served. -/
  | proceed
  /-- The call fails with `err` and has no effect. -/
  | fail (err : SdkError)
  /-- Another writer replaces the item first (its members edited by `m`), then
  the call is served. -/
  | commit (container : ContainerID) (pk : PartitionKey) (itemId : String) (m : Fields → Fields)

/-- The state of the in-memory store. -/
structure MemStore where
  items : List Stored
  /-- The next fresh version token. -/
  clock : ETag
  /-- The environment's behaviour at the coming calls; served normally once empty. -/
  script : List Step

namespace MemStore

/-- Whether an item is the one addressed by (container, partition key, id). -/
def addresses (c : ContainerID) (pk : PartitionKey) (itemId : String) (it : Stored) : Bool :=
  it.container == c && it.pk == pk && it.body.id == itemId

/-- The item addressed by (container, partition key, id). -/
def find (s : MemStore) (c : ContainerID) (pk : PartitionKey) (itemId : String) : Option Stored :=
  s.items.find? (addresses c pk itemId)

/-- The store after a write of `body` over the addressed item. -/
def put (s : MemStore) (c : ContainerID) (pk : PartitionKey) (itemId : String)
    (body : Payload) : MemStore :=
  { s with
    items := s.items.map fun it =>
      if addresses c pk itemId it then ⟨c, pk, body.withETag s.clock⟩ else it
    clock := s.clock + 1 }

/-- The arrival of a call: the next step of the script is consumed. -/
def arrive (s : MemStore) : Option SdkError × MemStore :=
  match s.script with
  | [] => (none, s)
  | .proceed :: script => (none, { s with script := script })
  | .fail err :: script => (some err, { s with script := script })
  | .commit c pk itemId m :: script =>
    match s.find c pk itemId with
    | none => (none, { s with script := script })
    | some it => (none, { s.put c pk itemId (it.body.edit m) with script := script })

/-- Whether an item answers `STRINGEQUALS(c.key, @resourceId, true)`. -/
def keyEquals (c : ContainerID) (pk : PartitionKey) (resourceId : String) (it : Stored) : Bool :=
  it.container == c && it.pk == pk &&
    match it.body with
    | .resource doc => ToLower doc.ResourceID.String == ToLower resourceId
    | _ => false

/-- A partition-scoped query for a resource identifier, one item a page. -/
def NewQueryItemsPager (c : ContainerID) (_query : String) (pk : PartitionKey)
    (opt : QueryOptions) (s : MemStore) : Pager Payload × MemStore :=
  match s.arrive with
  | (some err, s) => ([.error err], s)
  | (none, s) =>
    match opt.QueryParameters.lookup "@resourceId" with
    | none => ([.ok []], s)
    | some resourceId =>
      match s.items.filter (keyEquals c pk resourceId) with
      | [] => ([.ok []], s)
      | found => (found.map fun it => .ok [it.body], s)

/-- A point read. -/
def ReadItem (c : ContainerID) (pk : PartitionKey) (itemId : String)
    (s : MemStore) : Except SdkError Payload × MemStore :=
  match s.arrive with
  | (some err, s) => (.error err, s)
  | (none, s) =>
    match s.find c pk itemId with
    | none => (.error (.ResponseError 404), s)
    | some it => (.ok it.body, s)

/-- A create: refused with 409 when the item exists. -/
def CreateItem (c : ContainerID) (pk : PartitionKey) (data : Payload)
    (s : MemStore) : Option SdkError × MemStore :=
  match s.arrive with
  | (some err, s) => (some err, s)
  | (none, s) =>
    match s.find c pk data.id with
    | some _ => (some (.ResponseError 409), s)
    | none =>
      (none, { s with items := s.items ++ [⟨c, pk, data.withETag s.clock⟩], clock := s.clock + 1 })

/-- A replace: 404 when the item is absent, 412 when the `If-Match` token is not
the stored one, 400 when the payload carries another id. -/
def ReplaceItem (c : ContainerID) (pk : PartitionKey) (itemId : String) (data : Payload)
    (options : ItemOptions) (s : MemStore) : Option SdkError × MemStore :=
  match s.arrive with
  | (some err, s) => (some err, s)
  | (none, s) =>
    match s.find c pk itemId with
    | none => (some (.ResponseError 404), s)
    | some it =>
      if options.IfMatchEtag.isSome && options.IfMatchEtag != some it.body.etag then
        (some (.ResponseError 412), s)
      else if data.id != itemId then (some (.ResponseError 400), s)
      else (none, s.put c pk itemId data)

/-- A delete: 404 when the item is absent. -/
def DeleteItem (c : ContainerID) (pk : PartitionKey) (itemId : String)
    (s : MemStore) : Option SdkError × MemStore :=
  match s.arrive with
  | (some err, s) => (some err, s)
  | (none, s) =>
    match s.find c pk itemId with
    | none => (some (.ResponseError 404), s)
    | some _ => (none, { s with items := s.items.filter fun it => !addresses c pk itemId it })

/-- One container of the in-memory store. -/
def container (c : ContainerID) : ContainerClient MemStore Payload where
  id := c
  NewQueryItemsPager := NewQueryItemsPager c
  ReadItem := ReadItem c
  CreateItem := CreateItem c
  ReplaceItem := ReplaceItem c
  DeleteItem := DeleteItem c

/-- Modelled from the spec: `upsertPartitionKey` is defined outside `database.go`.
"`upsert(partitionKey)` idempotently records a partition key as known": the
entry is added to the PartitionKeys container unless it is there already, and a
failing call records nothing. -/
def upsertPartitionKey (partitionKey : String) (s : MemStore) : Option GoError × MemStore :=
  match s.arrive with
  | (some err, s) => (some (.sdk err), s)
  | (none, s) =>
    match s.find .PartitionKeys (NewPartitionKey partitionKey) partitionKey with
    | some _ => (none, s)
    | none =>
      (none, { s with
        items := s.items ++ [⟨.PartitionKeys, NewPartitionKey partitionKey, .partitionKey partitionKey⟩] })

/-- Every SubscriptionDocument's partition key has a PartitionIndexEntry: for
each item of the Subscriptions container, the PartitionKeys container holds an
item whose id is that item's partition key. -/
def indexed (s : MemStore) : Bool :=
  s.items.all fun it =>
    it.container != .Subscriptions ||
      s.items.any fun e => e.container == .PartitionKeys && e.body.id == it.pk.value

/-- Every SubscriptionDocument's partition key has a PartitionIndexEntry, except
possibly the partition key `key`. -/
def indexedBut (key : String) (items : List Stored) : Prop :=
  ∀ it ∈ items, it.container = .Subscriptions →
    (∃ e ∈ items, e.container = .PartitionKeys ∧ e.body.id = it.pk.value) ∨ it.pk.value = key

end MemStore

/-- The facade over the in-memory store, wired as `NewDBClient` does. -/
def memClient : cosmosDBClient MemStore Payload where
  resources := MemStore.container .Resources
  operations := MemStore.container .Operations
  subscriptions := MemStore.container .Subscriptions
  partitionKeys := MemStore.container .PartitionKeys
  upsertPartitionKey := MemStore.upsertPartitionKey

/-! ## Concrete worlds -/

/-- A resource identifier as it arrives in a request URL. -/
def demoID : ResourceID := ⟨"6B1D", "/subscriptions/6B1D/resourceGroups/RG"⟩

/-- A resource document stored under the same identifier in another casing. -/
def demoDoc : ResourceDocument :=
  ⟨"doc-1", 7, ⟨"6b1d", "/subscriptions/6b1d/resourcegroups/rg"⟩, "6b1d", [("state", "new")]⟩

/-- A store holding one document of each kind and the matching index entry. -/
def demoStore : MemStore :=
  ⟨[⟨.Resources, ⟨"6b1d"⟩, .resource demoDoc⟩,
    ⟨.Operations, ⟨"workaround"⟩, .operation ⟨"op-1", 3, []⟩⟩,
    ⟨.Subscriptions, ⟨"6b1d"⟩, .subscription ⟨"6b1d", 5, []⟩⟩,
    ⟨.PartitionKeys, ⟨"6b1d"⟩, .partitionKey "6b1d"⟩], 8, []⟩

/-- The in-memory store with another writer touching operation `op-1` before
each of the next five replace calls, and nobody interfering afterwards. -/
def busyStore : MemStore :=
  ⟨demoStore.items, 8,
    [.proceed, .commit .Operations ⟨"workaround"⟩ "op-1" id,
     .proceed, .commit .Operations ⟨"workaround"⟩ "op-1" id,
     .proceed, .commit .Operations ⟨"workaround"⟩ "op-1" id,
     .proceed, .commit .Operations ⟨"workaround"⟩ "op-1" id,
     .proceed, .commit .Operations ⟨"workaround"⟩ "op-1" id]⟩

/-- A codec that cannot encode an operation document and is `memJSON` otherwise. -/
def brokenJSON : JSON Payload :=
  { memJSON with
    MarshalOperation := fun _ => .error (.other "json: unsupported value") }

/-- A container under permanent contention: every item exists and every
replace is refused with HTTP 412.  The state counts the calls served. -/
def contendedContainer (c : ContainerID) : ContainerClient Nat Payload where
  id := c
  NewQueryItemsPager _ _ _ n := ([.ok [.resource { demoDoc with CosmosETag := n }]], n + 1)
  ReadItem _ itemId n :=
    (.ok (match c with
      | .Operations => .operation ⟨itemId, n, []⟩
      | _ => .subscription ⟨itemId, n, []⟩), n + 1)
  CreateItem _ _ n := (some (.ResponseError 409), n + 1)
  ReplaceItem _ _ _ _ n := (some (.ResponseError 412), n + 1)
  DeleteItem _ _ n := (none, n + 1)

/-- The facade over containers under permanent contention. -/
def contendedClient : cosmosDBClient Nat Payload where
  resources := contendedContainer .Resources
  operations := contendedContainer .Operations
  subscriptions := contendedContainer .Subscriptions
  partitionKeys := contendedContainer .PartitionKeys
  upsertPartitionKey _ n := (none, n + 1)

/-! ## Reading the trace -/

/-- The one SDK call of `GetResourceDoc`, as it appears in the trace. -/
def GetResourceDoc.event {σ B : Type} (d : cosmosDBClient σ B) (r : ResourceID) : Event B :=
  Event.NewQueryItemsPager d.resources.id GetResourceDoc.query
    (NewPartitionKey r.SubscriptionID) (GetResourceDoc.opt r)

/-- The one SDK call of `GetOperationDoc`, as it appears in the trace. -/
def GetOperationDoc.event {σ B : Type} (d : cosmosDBClient σ B) (operationID : String) :
    Event B :=
  Event.ReadItem d.operations.id (NewPartitionKey operationsPartitionKey) (ToLower operationID)

/-- The one SDK call of `GetSubscriptionDoc`, as it appears in the trace. -/
def GetSubscriptionDoc.event {σ B : Type} (d : cosmosDBClient σ B) (subscriptionID : String) :
    Event B :=
  Event.ReadItem d.subscriptions.id (NewPartitionKey (ToLower subscriptionID))
    (ToLower subscriptionID)

/-- The event is a fetch: a query or a point read. -/
def Event.isFetch {B : Type} : Event B → Bool
  | .NewQueryItemsPager .. => true
  | .ReadItem .. => true
  | _ => false

/-- The event is a callback invocation. -/
def Event.isCallback {B : Type} : Event B → Bool
  | .callback => true
  | _ => false

/-- The event is a `ReplaceItem` call. -/
def Event.isReplace {B : Type} : Event B → Bool
  | .ReplaceItem .. => true
  | _ => false

/-- The event is a `DeleteItem` call. -/
def Event.isDelete {B : Type} : Event B → Bool
  | .DeleteItem .. => true
  | _ => false

/-- The result of a get operation is an error matching `ErrNotFound`. -/
def reportsNotFound {α : Type} : Except GoError α → Bool
  | .error err => err.isErrNotFound
  | .ok _ => false

/-! ## Lower-casing -/

theorem caseRuns_apart :
    caseRuns.all (fun r => wellFormed r && caseRuns.all (fun r2 => apart r r2)) = true := by
  decide!

theorem toNat_ofNat_of_valid (n : Nat) (hv : n.isValidChar) : (Char.ofNat n).toNat = n := by
  unfold Char.ofNat
  simp only [hv, dite_true, Char.ofNatAux, Char.toNat, UInt32.toNat]
  simp [BitVec.toNat_ofNatLt]

theorem covers_lower (r r2 : Nat × Nat × Nat × Nat) (n : Nat)
    (hw : wellFormed r = true) (ha : apart r r2 = true) (hc : covers r n = true) :
    covers r2 (r.2.2.1 + (n - r.1)) = false := by
  obtain ⟨lo, hi, lower, stride⟩ := r
  obtain ⟨lo2, hi2, lower2, stride2⟩ := r2
  simp only [wellFormed, apart, covers, Bool.and_eq_true, Bool.or_eq_true, beq_iff_eq,
    decide_eq_true_eq, bne_iff_ne, ne_eq, Bool.not_eq_true', Bool.and_eq_false_imp] at *
  intro h1
  obtain ⟨⟨hs, hle⟩, hvalid⟩ := hw
  obtain ⟨⟨hlo, hhi⟩, hmod⟩ := hc
  rcases ha with ((ha | ha) | ⟨⟨hs1, hs2⟩, hpar⟩) | ⟨heq, hcov⟩
  · omega
  · omega
  · subst hs1 hs2
    simp only [beq_eq_false_iff_ne, ne_eq]
    omega
  · have hn : n = lo := by omega
    subst hn
    simp only [Nat.sub_self, Nat.add_zero] at h1 ⊢
    exact hcov h1

theorem toLowerRune_of_not_covered (x : Char)
    (hx : caseRuns.find? (fun r => covers r x.toNat) = none) : toLowerRune x = x := by
  simp only [toLowerRune, hx]

theorem toLowerRune_not_covered (c : Char) :
    ∀ r2 ∈ caseRuns, covers r2 (toLowerRune c).toNat = false := by
  intro r2 hr2
  cases hfind : caseRuns.find? (fun r => covers r c.toNat) with
  | none =>
    rw [toLowerRune_of_not_covered c hfind]
    rw [List.find?_eq_none] at hfind
    simpa using hfind r2 hr2
  | some r =>
    have hmem : r ∈ caseRuns := List.mem_of_find?_eq_some hfind
    have hcov : covers r c.toNat = true :=
      List.find?_some (p := fun r => covers r c.toNat) hfind
    have hall := caseRuns_apart
    simp only [List.all_eq_true, Bool.and_eq_true] at hall
    have hw := (hall r hmem).1
    have hval : (Char.ofNat (r.2.2.1 + (c.toNat - r.1))).toNat = r.2.2.1 + (c.toNat - r.1) := by
      apply toNat_ofNat_of_valid
      obtain ⟨lo, hi, lower, stride⟩ := r
      simp only [wellFormed, covers, Bool.and_eq_true, Bool.or_eq_true, beq_iff_eq,
        decide_eq_true_eq] at hw hcov
      simp only [Nat.isValidChar]
      omega
    have hc : toLowerRune c = Char.ofNat (r.2.2.1 + (c.toNat - r.1)) := by
      simp only [toLowerRune, hfind]
    rw [hc, hval]
    exact covers_lower r r2 c.toNat hw ((hall r hmem).2 r2 hr2) hcov

theorem toLowerRune_idem (c : Char) : toLowerRune (toLowerRune c) = toLowerRune c := by
  apply toLowerRune_of_not_covered
  rw [List.find?_eq_none]
  intro r2 hr2
  simp [toLowerRune_not_covered c r2 hr2]

theorem ToLower_idem (s : String) : ToLower (ToLower s) = ToLower s := by
  simp [ToLower, List.map_map, Function.comp_def, toLowerRune_idem]

theorem toLowerRune_eq_of_sameLetter {x y : Char} (h : sameLetter x y = true) :
    toLowerRune x = toLowerRune y := by
  simp only [sameLetter, Bool.or_eq_true, beq_iff_eq] at h
  rcases h with (h | h) | h
  · rw [h]
  · rw [← h, toLowerRune_idem]
  · rw [← h, toLowerRune_idem]

theorem map_toLowerRune_eq_of_differOnlyInCase :
    ∀ (xs ys : List Char), differOnlyInCase xs ys = true →
      xs.map toLowerRune = ys.map toLowerRune
  | [], [], _ => rfl
  | [], _ :: _, h => by simp [differOnlyInCase] at h
  | _ :: _, [], h => by simp [differOnlyInCase] at h
  | x :: xs, y :: ys, h => by
    simp only [differOnlyInCase, Bool.and_eq_true] at h
    simp [toLowerRune_eq_of_sameLetter h.1, map_toLowerRune_eq_of_differOnlyInCase xs ys h.2]

/-- C10. `NewPartitionKey(S)` equals `NewPartitionKey(lower(S))` for every
subscription identifier `S`, and two identifiers that differ only in letter
case derive the same partition key. -/
theorem NewPartitionKey_case_normalization :
    (∀ S : String, NewPartitionKey S = NewPartitionKey (ToLower S)) ∧
    (∀ S T : String, differOnlyInCase S.data T.data = true →
      NewPartitionKey S = NewPartitionKey T) := by
  refine ⟨fun S => ?_, fun S T h => ?_⟩
  · simp [NewPartitionKey, ToLower_idem]
  · simp [NewPartitionKey, ToLower, map_toLowerRune_eq_of_differOnlyInCase _ _ h]

/-- C10 at concrete identifiers, with letters inside and outside ASCII. -/
theorem NewPartitionKey_case_normalization_witness :
    differOnlyInCase "ÀÉ-6B1D-AbC".data "àÉ-6b1d-aBc".data = true ∧
    NewPartitionKey "ÀÉ-6B1D-AbC" = NewPartitionKey "àÉ-6b1d-aBc" ∧
    NewPartitionKey "ÀÉ-6B1D-AbC" = NewPartitionKey (ToLower "ÀÉ-6B1D-AbC") ∧
    NewPartitionKey "ÀÉ-6B1D-AbC" = ⟨"àé-6b1d-abc"⟩ ∧
    NewPartitionKey "ΣİǅK" = ⟨"σiǆk"⟩ :=
  ⟨by decide, NewPartitionKey_case_normalization.2 _ _ (by decide),
    NewPartitionKey_case_normalization.1 _, by decide, by decide⟩

/-! ## Reading a resource document -/

section Get

variable {σ B : Type}

theorem GetResourceDoc.pages_ok (J : JSON B) (r : ResourceID) :
    ∀ (ps : List (List B)) (doc : Option ResourceDocument),
      GetResourceDoc.pages J r (ps.map Except.ok) doc
        = GetResourceDoc.items J r ps.flatten doc
  | [], doc => by simp [GetResourceDoc.pages, GetResourceDoc.items]
  | p :: ps, doc => by
    have items_append : ∀ (xs ys : List B) (doc : Option ResourceDocument),
        GetResourceDoc.items J r (xs ++ ys) doc
          = match GetResourceDoc.items J r xs doc with
            | .error err => .error err
            | .ok doc => GetResourceDoc.items J r ys doc := by
      intro xs
      induction xs with
      | nil => intro ys doc; simp [GetResourceDoc.items]
      | cons x xs ih =>
        intro ys doc
        simp only [List.cons_append, GetResourceDoc.items]
        cases J.UnmarshalResource x doc with
        | error e => rfl
        | ok v => exact ih ys (some v)
    simp only [List.map_cons, GetResourceDoc.pages, List.flatten_cons, items_append]
    cases GetResourceDoc.items J r p doc with
    | error e => rfl
    | ok v => exact GetResourceDoc.pages_ok J r ps v

theorem GetResourceDoc.items_isSome (J : JSON B) (r : ResourceID) :
    ∀ (xs : List B) (doc res : Option ResourceDocument),
      GetResourceDoc.items J r xs doc = .ok res → (doc.isSome ∨ xs ≠ []) → res.isSome
  | [], doc, res, h, hne => by
    simp [GetResourceDoc.items] at h
    subst h
    simpa using hne
  | x :: xs, doc, res, h, _ => by
    simp only [GetResourceDoc.items] at h
    cases hx : J.UnmarshalResource x doc with
    | error e => simp [hx] at h
    | ok v =>
      simp only [hx] at h
      exact GetResourceDoc.items_isSome J r xs (some v) res h (Or.inl rfl)

theorem GetResourceDoc.items_not_found (J : JSON B) (r : ResourceID) :
    ∀ (xs : List B) (doc : Option ResourceDocument) (err : GoError),
      GetResourceDoc.items J r xs doc = .error err → err.isErrNotFound = false
  | [], doc, err, h => by simp [GetResourceDoc.items] at h
  | x :: xs, doc, err, h => by
    simp only [GetResourceDoc.items] at h
    cases hx : J.UnmarshalResource x doc with
    | error e =>
      simp only [hx, Except.error.injEq] at h
      subst h
      rfl
    | ok v =>
      simp only [hx] at h
      exact GetResourceDoc.items_not_found J r xs (some v) err h

theorem GetResourceDoc.pages_cases (J : JSON B) (r : ResourceID) :
    ∀ (pager : Pager B) (doc : Option ResourceDocument),
      (∃ err, GetResourceDoc.pages J r pager doc = .error err ∧ err.isErrNotFound = false) ∨
      (∃ (ps : List (List B)) (res : Option ResourceDocument),
        pager = ps.map Except.ok ∧ GetResourceDoc.pages J r pager doc = .ok res ∧
        (res.isSome ↔ (doc.isSome ∨ ps.flatten ≠ [])))
  | [], doc => Or.inr ⟨[], doc, rfl, rfl, by simp⟩
  | .error e :: _, doc => Or.inl ⟨_, rfl, rfl⟩
  | .ok p :: pager, doc => by
    simp only [GetResourceDoc.pages]
    cases hp : GetResourceDoc.items J r p doc with
    | error e => exact Or.inl ⟨e, rfl, GetResourceDoc.items_not_found J r p doc e hp⟩
    | ok v =>
      rcases GetResourceDoc.pages_cases J r pager v with ⟨e, he, hn⟩ | ⟨ps, res, hps, hres, hiff⟩
      · exact Or.inl ⟨e, he, hn⟩
      · refine Or.inr ⟨p :: ps, res, by simp [hps], hres, ?_⟩
        rw [hiff]
        cases p with
        | nil =>
          simp only [GetResourceDoc.items, Except.ok.injEq] at hp
          subst hp
          simp
        | cons x xs =>
          have := GetResourceDoc.items_isSome J r (x :: xs) doc v hp (Or.inr (by simp))
          simp [this]

theorem GetResourceDoc_world (d : cosmosDBClient σ B) (J : JSON B) (r : ResourceID)
    (w : World σ B) :
    (GetResourceDoc d J r w).2 =
      ⟨(d.resources.NewQueryItemsPager GetResourceDoc.query
          (NewPartitionKey r.SubscriptionID) (GetResourceDoc.opt r) w.state).2,
        w.trace ++ [Event.NewQueryItemsPager d.resources.id GetResourceDoc.query
          (NewPartitionKey r.SubscriptionID) (GetResourceDoc.opt r)]⟩ := by
  simp only [GetResourceDoc, ContainerClient.queryItems]
  split <;> rfl

/-- C5. Casing preservation: when the case-insensitive query for `r` yields a
document, `GetResourceDoc(r)` returns the stored document with its `ResourceID`
field set to `r`, the identifier of the read call, and every other field as
stored. -/
theorem GetResourceDoc_preserves_casing (d : cosmosDBClient σ B) (J : JSON B)
    (r : ResourceID) (w : World σ B) (ps : List (List B)) (item : B)
    (stored : ResourceDocument)
    (hquery : (d.resources.NewQueryItemsPager GetResourceDoc.query
      (NewPartitionKey r.SubscriptionID) (GetResourceDoc.opt r) w.state).1 = ps.map Except.ok)
    (hitem : ps.flatten = [item])
    (hstored : J.UnmarshalResource item none = .ok stored) :
    (GetResourceDoc d J r w).1 = .ok { stored with ResourceID := r } ∧
    ∀ doc, (GetResourceDoc d J r w).1 = .ok doc →
      doc.ResourceID = r ∧ doc.ID = stored.ID ∧ doc.CosmosETag = stored.CosmosETag ∧
      doc.PartitionKey = stored.PartitionKey ∧ doc.rest = stored.rest := by
  have h : (GetResourceDoc d J r w).1 = .ok { stored with ResourceID := r } := by
    simp only [GetResourceDoc, ContainerClient.queryItems, hquery, GetResourceDoc.pages_ok,
      hitem, GetResourceDoc.items, hstored]
  refine ⟨h, fun doc hdoc => ?_⟩
  rw [h] at hdoc
  cases hdoc
  simp

/-- C6. A get operation reports absence with `ErrNotFound` and nothing else:
`GetSubscriptionDoc` and `GetOperationDoc` return an error matching
`ErrNotFound` exactly when the point read fails with an error that carries a
response error of status 404, `GetResourceDoc` exactly when its query
completes without error and yields no document. -/
theorem get_reports_not_found_iff (d : cosmosDBClient σ B) (J : JSON B) (w : World σ B) :
    (∀ subscriptionID : String,
      reportsNotFound (GetSubscriptionDoc d J subscriptionID w).1 = true ↔
        ∃ err, (d.subscriptions.ReadItem (NewPartitionKey (ToLower subscriptionID))
            (ToLower subscriptionID) w.state).1 = .error err ∧
          err.asResponseError = some 404) ∧
    (∀ operationID : String,
      reportsNotFound (GetOperationDoc d J operationID w).1 = true ↔
        ∃ err, (d.operations.ReadItem (NewPartitionKey operationsPartitionKey)
            (ToLower operationID) w.state).1 = .error err ∧
          err.asResponseError = some 404) ∧
    (∀ r : ResourceID,
      reportsNotFound (GetResourceDoc d J r w).1 = true ↔
        ∃ ps : List (List B),
          (d.resources.NewQueryItemsPager GetResourceDoc.query
            (NewPartitionKey r.SubscriptionID) (GetResourceDoc.opt r) w.state).1
              = ps.map Except.ok ∧
          ps.flatten = []) := by
  have h404iff : ∀ e : SdkError,
      isResponseError (.sdk e) StatusNotFound = true ↔ e.asResponseError = some 404 := by
    intro e
    simp only [isResponseError, GoError.asResponseError, StatusNotFound]
    cases e.asResponseError <;> simp
  refine ⟨fun subscriptionID => ?_, fun operationID => ?_, fun r => ?_⟩
  · simp only [GetSubscriptionDoc, ContainerClient.readItem]
    cases hr : (d.subscriptions.ReadItem (NewPartitionKey (ToLower subscriptionID))
        (ToLower subscriptionID) w.state).1 with
    | error e =>
      by_cases h404 : e.asResponseError = some 404
      · simp [(h404iff e).mpr h404, h404, reportsNotFound, GoError.isErrNotFound]
      · have hno : ¬ isResponseError (.sdk e) StatusNotFound = true :=
          fun h => h404 ((h404iff e).mp h)
        simp [hno, h404, reportsNotFound, GoError.isErrNotFound]
    | ok v =>
      cases hu : J.UnmarshalSubscription v none <;>
        simp [hu, reportsNotFound, GoError.isErrNotFound]
  · simp only [GetOperationDoc, ContainerClient.readItem]
    cases hr : (d.operations.ReadItem (NewPartitionKey operationsPartitionKey)
        (ToLower operationID) w.state).1 with
    | error e =>
      by_cases h404 : e.asResponseError = some 404
      · simp [(h404iff e).mpr h404, h404, reportsNotFound, GoError.isErrNotFound]
      · have hno : ¬ isResponseError (.sdk e) StatusNotFound = true :=
          fun h => h404 ((h404iff e).mp h)
        simp [hno, h404, reportsNotFound, GoError.isErrNotFound]
    | ok v =>
      cases hu : J.UnmarshalOperation v none <;>
        simp [hu, reportsNotFound, GoError.isErrNotFound]
  · simp only [GetResourceDoc, ContainerClient.queryItems]
    rcases GetResourceDoc.pages_cases J r (d.resources.NewQueryItemsPager GetResourceDoc.query
        (NewPartitionKey r.SubscriptionID) (GetResourceDoc.opt r) w.state).1 none with
      ⟨e, he, hn⟩ | ⟨ps, res, hps, hres, hiff⟩
    · rw [he]
      simp only [reportsNotFound, hn, Bool.false_eq_true, false_iff, not_exists, not_and]
      intro ps hps
      rw [hps, GetResourceDoc.pages_ok] at he
      intro hflat
      rw [hflat] at he
      simp [GetResourceDoc.items] at he
    · rw [hres]
      cases res with
      | none =>
        simp only [reportsNotFound, GoError.isErrNotFound, true_iff]
        refine ⟨ps, hps, ?_⟩
        by_contra hne
        have := hiff.2 (Or.inr hne)
        simp at this
      | some doc =>
        simp only [reportsNotFound, Bool.false_eq_true, false_iff, not_exists, not_and]
        intro ps2 hps2
        have hinj : ps2 = ps := by
          have := hps2.symm.trans hps
          exact List.map_injective_iff.mpr (fun a b h => by cases h; rfl) this
        subst hinj
        have := hiff.1 rfl
        simpa using this

theorem GetOperationDoc_world (d : cosmosDBClient σ B) (J : JSON B) (operationID : String)
    (w : World σ B) :
    (GetOperationDoc d J operationID w).2 =
      ⟨(d.operations.ReadItem (NewPartitionKey operationsPartitionKey)
          (ToLower operationID) w.state).2,
        w.trace ++ [Event.ReadItem d.operations.id (NewPartitionKey operationsPartitionKey)
          (ToLower operationID)]⟩ := by
  simp only [GetOperationDoc, ContainerClient.readItem]
  split
  · rfl
  · split <;> rfl

theorem GetSubscriptionDoc_world (d : cosmosDBClient σ B) (J : JSON B)
    (subscriptionID : String) (w : World σ B) :
    (GetSubscriptionDoc d J subscriptionID w).2 =
      ⟨(d.subscriptions.ReadItem (NewPartitionKey (ToLower subscriptionID))
          (ToLower subscriptionID) w.state).2,
        w.trace ++ [Event.ReadItem d.subscriptions.id
          (NewPartitionKey (ToLower subscriptionID)) (ToLower subscriptionID)]⟩ := by
  simp only [GetSubscriptionDoc, ContainerClient.readItem]
  split
  · rfl
  · split <;> rfl

/-- C7. Delete-of-absent: when the query for `r` completes and yields no
document, `DeleteResourceDoc(r)` returns no error and its only SDK call is the
query (no `DeleteItem`); a fetch failure that does not match `ErrNotFound` is
returned as the error, again without a `DeleteItem` call. -/
theorem DeleteResourceDoc_of_absent (d : cosmosDBClient σ B) (J : JSON B) (r : ResourceID)
    (w : World σ B) :
    (∀ ps : List (List B),
      (d.resources.NewQueryItemsPager GetResourceDoc.query
        (NewPartitionKey r.SubscriptionID) (GetResourceDoc.opt r) w.state).1
          = ps.map Except.ok →
      ps.flatten = [] →
      DeleteResourceDoc d J r w =
        (none,
          ⟨(d.resources.NewQueryItemsPager GetResourceDoc.query
              (NewPartitionKey r.SubscriptionID) (GetResourceDoc.opt r) w.state).2,
            w.trace ++ [Event.NewQueryItemsPager d.resources.id GetResourceDoc.query
              (NewPartitionKey r.SubscriptionID) (GetResourceDoc.opt r)]⟩)) ∧
    (∀ err : GoError,
      (GetResourceDoc d J r w).1 = .error err → err.isErrNotFound = false →
      DeleteResourceDoc d J r w =
        (some err,
          ⟨(d.resources.NewQueryItemsPager GetResourceDoc.query
              (NewPartitionKey r.SubscriptionID) (GetResourceDoc.opt r) w.state).2,
            w.trace ++ [Event.NewQueryItemsPager d.resources.id GetResourceDoc.query
              (NewPartitionKey r.SubscriptionID) (GetResourceDoc.opt r)]⟩)) := by
  refine ⟨fun ps hps hflat => ?_, fun err herr hnf => ?_⟩
  · have hget : (GetResourceDoc d J r w).1
        = .error (.Errorf "failed to read Resources container item for" r.String .ErrNotFound) := by
      simp only [GetResourceDoc, ContainerClient.queryItems, hps, GetResourceDoc.pages_ok,
        hflat, GetResourceDoc.items]
    have hw := GetResourceDoc_world d J r w
    rcases hg : GetResourceDoc d J r w with ⟨res, w1⟩
    rw [hg] at hget hw
    simp only at hget hw
    subst hget hw
    simp [DeleteResourceDoc, hg, GoError.isErrNotFound]
  · have hw := GetResourceDoc_world d J r w
    rcases hg : GetResourceDoc d J r w with ⟨res, w1⟩
    rw [hg] at herr hw
    simp only at herr hw
    subst herr hw
    simp [DeleteResourceDoc, hg, hnf]

end Get

/-! ## The update protocol -/

section Update

variable {σ B : Type}

/-- C1. Update no-op: for each of the three update operations, when the fetch
succeeds and the callback returns false, update returns `(false, nil)`, the
trace grows by exactly one fetch and one callback invocation (no `ReplaceItem`),
and the store is left in the state the fetch left it in: nothing is written. -/
theorem update_noop_when_callback_declines (d : cosmosDBClient σ B) (J : JSON B)
    (w : World σ B) :
    (∀ (r : ResourceID) (callback : ResourceDocument → Bool × ResourceDocument)
        (doc : ResourceDocument),
      (GetResourceDoc d J r w).1 = .ok doc → (callback doc).1 = false →
      UpdateResourceDoc d J r callback w =
        ((false, none),
          ⟨(d.resources.NewQueryItemsPager GetResourceDoc.query
              (NewPartitionKey r.SubscriptionID) (GetResourceDoc.opt r) w.state).2,
            w.trace ++ [Event.NewQueryItemsPager d.resources.id GetResourceDoc.query
              (NewPartitionKey r.SubscriptionID) (GetResourceDoc.opt r), Event.callback]⟩)) ∧
    (∀ (operationID : String) (callback : OperationDocument → Bool × OperationDocument)
        (doc : OperationDocument),
      (GetOperationDoc d J operationID w).1 = .ok doc → (callback doc).1 = false →
      UpdateOperationDoc d J operationID callback w =
        ((false, none),
          ⟨(d.operations.ReadItem (NewPartitionKey operationsPartitionKey)
              (ToLower operationID) w.state).2,
            w.trace ++ [Event.ReadItem d.operations.id (NewPartitionKey operationsPartitionKey)
              (ToLower operationID), Event.callback]⟩)) ∧
    (∀ (subscriptionID : String)
        (callback : SubscriptionDocument → Bool × SubscriptionDocument)
        (doc : SubscriptionDocument),
      (GetSubscriptionDoc d J subscriptionID w).1 = .ok doc → (callback doc).1 = false →
      UpdateSubscriptionDoc d J subscriptionID callback w =
        ((false, none),
          ⟨(d.subscriptions.ReadItem (NewPartitionKey (ToLower subscriptionID))
              (ToLower subscriptionID) w.state).2,
            w.trace ++ [Event.ReadItem d.subscriptions.id
              (NewPartitionKey (ToLower subscriptionID)) (ToLower subscriptionID),
              Event.callback]⟩)) := by
  refine ⟨fun r callback doc hdoc hcb => ?_, fun operationID callback doc hdoc hcb => ?_,
    fun subscriptionID callback doc hdoc hcb => ?_⟩
  · have hw := GetResourceDoc_world d J r w
    rcases hg : GetResourceDoc d J r w with ⟨res, w1⟩
    rw [hg] at hdoc hw
    simp only at hdoc hw
    subst hdoc hw
    rcases hc : callback doc with ⟨changed, doc2⟩
    rw [hc] at hcb
    simp only at hcb
    subst hcb
    simp [UpdateResourceDoc, UpdateResourceDoc.loop, hg, hc, World.invoked]
  · have hw := GetOperationDoc_world d J operationID w
    rcases hg : GetOperationDoc d J operationID w with ⟨res, w1⟩
    rw [hg] at hdoc hw
    simp only at hdoc hw
    subst hdoc hw
    rcases hc : callback doc with ⟨changed, doc2⟩
    rw [hc] at hcb
    simp only at hcb
    subst hcb
    simp [UpdateOperationDoc, UpdateOperationDoc.loop, hg, hc, World.invoked]
  · have hw := GetSubscriptionDoc_world d J subscriptionID w
    rcases hg : GetSubscriptionDoc d J subscriptionID w with ⟨res, w1⟩
    rw [hg] at hdoc hw
    simp only at hdoc hw
    subst hdoc hw
    rcases hc : callback doc with ⟨changed, doc2⟩
    rw [hc] at hcb
    simp only at hcb
    subst hcb
    simp [UpdateSubscriptionDoc, UpdateSubscriptionDoc.loop, hg, hc, World.invoked]

theorem GetResourceDoc_trace (d : cosmosDBClient σ B) (J : JSON B) (r : ResourceID)
    (w : World σ B) :
    (GetResourceDoc d J r w).2.trace = w.trace ++ [GetResourceDoc.event d r] := by
  rw [GetResourceDoc_world]
  rfl

theorem GetOperationDoc_trace (d : cosmosDBClient σ B) (J : JSON B) (operationID : String)
    (w : World σ B) :
    (GetOperationDoc d J operationID w).2.trace = w.trace ++ [GetOperationDoc.event d operationID] := by
  rw [GetOperationDoc_world]
  rfl

theorem GetSubscriptionDoc_trace (d : cosmosDBClient σ B) (J : JSON B)
    (subscriptionID : String) (w : World σ B) :
    (GetSubscriptionDoc d J subscriptionID w).2.trace
      = w.trace ++ [GetSubscriptionDoc.event d subscriptionID] := by
  rw [GetSubscriptionDoc_world]
  rfl

theorem UpdateResourceDoc_loop_fetch_error (d : cosmosDBClient σ B) (J : JSON B)
    (r : ResourceID) (callback : ResourceDocument → Bool × ResourceDocument)
    (pk : PartitionKey) (tries : Nat) (err0 : Option GoError) (w : World σ B) (err : GoError)
    (hfetch : (GetResourceDoc d J r w).1 = .error err) :
    UpdateResourceDoc.loop d J r callback pk (tries + 1) err0 w
      = ((false, some err), (GetResourceDoc d J r w).2) := by
  rcases hg : GetResourceDoc d J r w with ⟨res, w1⟩
  rw [hg] at hfetch
  simp only at hfetch
  subst hfetch
  simp [UpdateResourceDoc.loop, hg]

theorem UpdateResourceDoc_loop_replace_error (d : cosmosDBClient σ B) (J : JSON B)
    (r : ResourceID) (callback : ResourceDocument → Bool × ResourceDocument)
    (pk : PartitionKey) (tries : Nat) (err0 : Option GoError) (w : World σ B)
    (doc : ResourceDocument) (data : B) (err : SdkError)
    (hfetch : (GetResourceDoc d J r w).1 = .ok doc)
    (hcb : (callback doc).1 = true)
    (hdata : J.MarshalResource (callback doc).2 = .ok data)
    (hreplace : (d.resources.ReplaceItem pk (callback doc).2.ID data
      ⟨some (callback doc).2.CosmosETag⟩ (GetResourceDoc d J r w).2.state).1 = some err) :
    UpdateResourceDoc.loop d J r callback pk (tries + 1) err0 w
      = if err.asResponseError ≠ some StatusPreconditionFailed then
          ((false, some (.Errorf "failed to replace Resources container item for" r.String
            (.sdk err))),
            (d.resources.replaceItem pk (callback doc).2.ID data
              ⟨some (callback doc).2.CosmosETag⟩ (GetResourceDoc d J r w).2.invoked).2)
        else
          UpdateResourceDoc.loop d J r callback pk tries
            (some (.Errorf "failed to replace Resources container item for" r.String
              (.sdk err)))
            (d.resources.replaceItem pk (callback doc).2.ID data
              ⟨some (callback doc).2.CosmosETag⟩ (GetResourceDoc d J r w).2.invoked).2 := by
  rcases hg : GetResourceDoc d J r w with ⟨res, w1⟩
  rw [hg] at hfetch hreplace
  simp only at hfetch hreplace
  subst hfetch
  rcases hc : callback doc with ⟨changed, doc2⟩
  rw [hc] at hcb hdata hreplace
  simp only at hcb hdata hreplace
  subst hcb
  simp only [UpdateResourceDoc.loop, hg, hc, hdata, ContainerClient.replaceItem, World.invoked,
    hreplace, GoError.asResponseError]
  simp

theorem UpdateResourceDoc_loop_contended (d : cosmosDBClient σ B) (J : JSON B)
    (r : ResourceID) (callback : ResourceDocument → Bool × ResourceDocument)
    (pk : PartitionKey)
    (hfetch : ∀ w : World σ B, ∃ doc, (GetResourceDoc d J r w).1 = .ok doc)
    (hcb : ∀ doc, (callback doc).1 = true)
    (hdata : ∀ doc, ∃ data, J.MarshalResource doc = .ok data)
    (hreplace : ∀ pk itemId data options s, ∃ err,
      (d.resources.ReplaceItem pk itemId data options s).1 = some err ∧
        err.asResponseError = some StatusPreconditionFailed) :
    ∀ (tries : Nat) (err0 : Option GoError) (w : World σ B),
      (UpdateResourceDoc.loop d J r callback pk tries err0 w).1.1 = false ∧
      (UpdateResourceDoc.loop d J r callback pk tries err0 w).2.trace.countP Event.isFetch
        = w.trace.countP Event.isFetch + tries ∧
      (UpdateResourceDoc.loop d J r callback pk tries err0 w).2.trace.countP Event.isCallback
        = w.trace.countP Event.isCallback + tries ∧
      (UpdateResourceDoc.loop d J r callback pk tries err0 w).2.trace.countP Event.isReplace
        = w.trace.countP Event.isReplace + tries ∧
      (UpdateResourceDoc.loop d J r callback pk tries err0 w).2.trace.length
        = w.trace.length + 3 * tries ∧
      (0 < tries → ∃ itemId data options err,
        (UpdateResourceDoc.loop d J r callback pk tries err0 w).2.trace.getLast?
          = some (Event.ReplaceItem d.resources.id pk itemId data options (some err)) ∧
        err.asResponseError = some StatusPreconditionFailed ∧
        (UpdateResourceDoc.loop d J r callback pk tries err0 w).1.2
          = some (.Errorf "failed to replace Resources container item for" r.String
              (.sdk err))) := by
  intro tries
  induction tries with
  | zero => intro err0 w; simp [UpdateResourceDoc.loop]
  | succ n ih =>
    intro err0 w
    obtain ⟨doc, hdoc⟩ := hfetch w
    obtain ⟨data, hd⟩ := hdata (callback doc).2
    obtain ⟨err, herr, h412⟩ := hreplace pk (callback doc).2.ID data
      ⟨some (callback doc).2.CosmosETag⟩ (GetResourceDoc d J r w).2.state
    rw [UpdateResourceDoc_loop_replace_error d J r callback pk n err0 w doc data err hdoc
      (hcb doc) hd herr]
    simp only [h412, ne_eq, not_true_eq_false, if_false]
    have htrace : (d.resources.replaceItem pk (callback doc).2.ID data
        ⟨some (callback doc).2.CosmosETag⟩ (GetResourceDoc d J r w).2.invoked).2.trace
        = w.trace ++ [GetResourceDoc.event d r, Event.callback,
            Event.ReplaceItem d.resources.id pk (callback doc).2.ID data
              ⟨some (callback doc).2.CosmosETag⟩ (some err)] := by
      simp [ContainerClient.replaceItem, World.invoked, GetResourceDoc_trace, herr]
    obtain ⟨h1, h2, h3, h4, h5, h6⟩ := ih
      (some (.Errorf "failed to replace Resources container item for" r.String (.sdk err)))
      (d.resources.replaceItem pk (callback doc).2.ID data
        ⟨some (callback doc).2.CosmosETag⟩ (GetResourceDoc d J r w).2.invoked).2
    rw [htrace] at h2 h3 h4 h5
    refine ⟨h1, ?_, ?_, ?_, ?_, fun _ => ?_⟩
    · rw [h2]
      simp [List.countP_append, List.countP_cons, GetResourceDoc.event, Event.isFetch]
      omega
    · rw [h3]
      simp [List.countP_append, List.countP_cons, GetResourceDoc.event, Event.isCallback]
      omega
    · rw [h4]
      simp [List.countP_append, List.countP_cons, GetResourceDoc.event, Event.isReplace]
      omega
    · rw [h5]
      simp
      omega
    · rcases Nat.eq_zero_or_pos n with hn | hn
      · subst hn
        refine ⟨(callback doc).2.ID, data, ⟨some (callback doc).2.CosmosETag⟩, err, ?_, h412, ?_⟩
        · simp [UpdateResourceDoc.loop, htrace]
        · simp [UpdateResourceDoc.loop]
      · exact h6 hn

theorem UpdateOperationDoc_loop_fetch_error (d : cosmosDBClient σ B) (J : JSON B)
    (operationID : String) (callback : OperationDocument → Bool × OperationDocument)
    (pk : PartitionKey) (tries : Nat) (err0 : Option GoError) (w : World σ B) (err : GoError)
    (hfetch : (GetOperationDoc d J operationID w).1 = .error err) :
    UpdateOperationDoc.loop d J operationID callback pk (tries + 1) err0 w
      = ((false, some err), (GetOperationDoc d J operationID w).2) := by
  rcases hg : GetOperationDoc d J operationID w with ⟨res, w1⟩
  rw [hg] at hfetch
  simp only at hfetch
  subst hfetch
  simp [UpdateOperationDoc.loop, hg]

theorem UpdateOperationDoc_loop_replace_error (d : cosmosDBClient σ B) (J : JSON B)
    (operationID : String) (callback : OperationDocument → Bool × OperationDocument)
    (pk : PartitionKey) (tries : Nat) (err0 : Option GoError) (w : World σ B)
    (doc : OperationDocument) (data : B) (err : SdkError)
    (hfetch : (GetOperationDoc d J operationID w).1 = .ok doc)
    (hcb : (callback doc).1 = true)
    (hdata : J.MarshalOperation (callback doc).2 = .ok data)
    (hreplace : (d.operations.ReplaceItem pk (callback doc).2.ID data
      ⟨some (callback doc).2.CosmosETag⟩ (GetOperationDoc d J operationID w).2.state).1 = some err) :
    UpdateOperationDoc.loop d J operationID callback pk (tries + 1) err0 w
      = if err.asResponseError ≠ some StatusPreconditionFailed then
          ((false, some (.Errorf "failed to replace Operations container item for" operationID
            (.sdk err))),
            (d.operations.replaceItem pk (callback doc).2.ID data
              ⟨some (callback doc).2.CosmosETag⟩ (GetOperationDoc d J operationID w).2.invoked).2)
        else
          UpdateOperationDoc.loop d J operationID callback pk tries
            (some (.Errorf "failed to replace Operations container item for" operationID
              (.sdk err)))
            (d.operations.replaceItem pk (callback doc).2.ID data
              ⟨some (callback doc).2.CosmosETag⟩ (GetOperationDoc d J operationID w).2.invoked).2 := by
  rcases hg : GetOperationDoc d J operationID w with ⟨res, w1⟩
  rw [hg] at hfetch hreplace
  simp only at hfetch hreplace
  subst hfetch
  rcases hc : callback doc with ⟨changed, doc2⟩
  rw [hc] at hcb hdata hreplace
  simp only at hcb hdata hreplace
  subst hcb
  simp only [UpdateOperationDoc.loop, hg, hc, hdata, ContainerClient.replaceItem, World.invoked,
    hreplace, GoError.asResponseError]
  simp

theorem UpdateOperationDoc_loop_contended (d : cosmosDBClient σ B) (J : JSON B)
    (operationID : String) (callback : OperationDocument → Bool × OperationDocument)
    (pk : PartitionKey)
    (hfetch : ∀ w : World σ B, ∃ doc, (GetOperationDoc d J operationID w).1 = .ok doc)
    (hcb : ∀ doc, (callback doc).1 = true)
    (hdata : ∀ doc, ∃ data, J.MarshalOperation doc = .ok data)
    (hreplace : ∀ pk itemId data options s, ∃ err,
      (d.operations.ReplaceItem pk itemId data options s).1 = some err ∧
        err.asResponseError = some StatusPreconditionFailed) :
    ∀ (tries : Nat) (err0 : Option GoError) (w : World σ B),
      (UpdateOperationDoc.loop d J operationID callback pk tries err0 w).1.1 = false ∧
      (UpdateOperationDoc.loop d J operationID callback pk tries err0 w).2.trace.countP Event.isFetch
        = w.trace.countP Event.isFetch + tries ∧
      (UpdateOperationDoc.loop d J operationID callback pk tries err0 w).2.trace.countP Event.isCallback
        = w.trace.countP Event.isCallback + tries ∧
      (UpdateOperationDoc.loop d J operationID callback pk tries err0 w).2.trace.countP Event.isReplace
        = w.trace.countP Event.isReplace + tries ∧
      (UpdateOperationDoc.loop d J operationID callback pk tries err0 w).2.trace.length
        = w.trace.length + 3 * tries ∧
      (0 < tries → ∃ itemId data options err,
        (UpdateOperationDoc.loop d J operationID callback pk tries err0 w).2.trace.getLast?
          = some (Event.ReplaceItem d.operations.id pk itemId data options (some err)) ∧
        err.asResponseError = some StatusPreconditionFailed ∧
        (UpdateOperationDoc.loop d J operationID callback pk tries err0 w).1.2
          = some (.Errorf "failed to replace Operations container item for" operationID
              (.sdk err))) := by
  intro tries
  induction tries with
  | zero => intro err0 w; simp [UpdateOperationDoc.loop]
  | succ n ih =>
    intro err0 w
    obtain ⟨doc, hdoc⟩ := hfetch w
    obtain ⟨data, hd⟩ := hdata (callback doc).2
    obtain ⟨err, herr, h412⟩ := hreplace pk (callback doc).2.ID data
      ⟨some (callback doc).2.CosmosETag⟩ (GetOperationDoc d J operationID w).2.state
    rw [UpdateOperationDoc_loop_replace_error d J operationID callback pk n err0 w doc data err hdoc
      (hcb doc) hd herr]
    simp only [h412, ne_eq, not_true_eq_false, if_false]
    have htrace : (d.operations.replaceItem pk (callback doc).2.ID data
        ⟨some (callback doc).2.CosmosETag⟩ (GetOperationDoc d J operationID w).2.invoked).2.trace
        = w.trace ++ [GetOperationDoc.event d operationID, Event.callback,
            Event.ReplaceItem d.operations.id pk (callback doc).2.ID data
              ⟨some (callback doc).2.CosmosETag⟩ (some err)] := by
      simp [ContainerClient.replaceItem, World.invoked, GetOperationDoc_trace, herr]
    obtain ⟨h1, h2, h3, h4, h5, h6⟩ := ih
      (some (.Errorf "failed to replace Operations container item for" operationID (.sdk err)))
      (d.operations.replaceItem pk (callback doc).2.ID data
        ⟨some (callback doc).2.CosmosETag⟩ (GetOperationDoc d J operationID w).2.invoked).2
    rw [htrace] at h2 h3 h4 h5
    refine ⟨h1, ?_, ?_, ?_, ?_, fun _ => ?_⟩
    · rw [h2]
      simp [List.countP_append, List.countP_cons, GetOperationDoc.event, Event.isFetch]
      omega
    · rw [h3]
      simp [List.countP_append, List.countP_cons, GetOperationDoc.event, Event.isCallback]
      omega
    · rw [h4]
      simp [List.countP_append, List.countP_cons, GetOperationDoc.event, Event.isReplace]
      omega
    · rw [h5]
      simp
      omega
    · rcases Nat.eq_zero_or_pos n with hn | hn
      · subst hn
        refine ⟨(callback doc).2.ID, data, ⟨some (callback doc).2.CosmosETag⟩, err, ?_, h412, ?_⟩
        · simp [UpdateOperationDoc.loop, htrace]
        · simp [UpdateOperationDoc.loop]
      · exact h6 hn

theorem UpdateSubscriptionDoc_loop_fetch_error (d : cosmosDBClient σ B) (J : JSON B)
    (subscriptionID : String) (callback : SubscriptionDocument → Bool × SubscriptionDocument)
    (pk : PartitionKey) (tries : Nat) (err0 : Option GoError) (w : World σ B) (err : GoError)
    (hfetch : (GetSubscriptionDoc d J subscriptionID w).1 = .error err) :
    UpdateSubscriptionDoc.loop d J subscriptionID callback pk (tries + 1) err0 w
      = ((false, some err), (GetSubscriptionDoc d J subscriptionID w).2) := by
  rcases hg : GetSubscriptionDoc d J subscriptionID w with ⟨res, w1⟩
  rw [hg] at hfetch
  simp only at hfetch
  subst hfetch
  simp [UpdateSubscriptionDoc.loop, hg]

theorem UpdateSubscriptionDoc_loop_replace_error (d : cosmosDBClient σ B) (J : JSON B)
    (subscriptionID : String) (callback : SubscriptionDocument → Bool × SubscriptionDocument)
    (pk : PartitionKey) (tries : Nat) (err0 : Option GoError) (w : World σ B)
    (doc : SubscriptionDocument) (data : B) (err : SdkError)
    (hfetch : (GetSubscriptionDoc d J subscriptionID w).1 = .ok doc)
    (hcb : (callback doc).1 = true)
    (hdata : J.MarshalSubscription (callback doc).2 = .ok data)
    (hreplace : (d.subscriptions.ReplaceItem pk (callback doc).2.ID data
      ⟨some (callback doc).2.CosmosETag⟩ (GetSubscriptionDoc d J subscriptionID w).2.state).1 = some err) :
    UpdateSubscriptionDoc.loop d J subscriptionID callback pk (tries + 1) err0 w
      = if err.asResponseError ≠ some StatusPreconditionFailed then
          ((false, some (.Errorf "failed to replace Subscriptions container item for" subscriptionID
            (.sdk err))),
            (d.subscriptions.replaceItem pk (callback doc).2.ID data
              ⟨some (callback doc).2.CosmosETag⟩ (GetSubscriptionDoc d J subscriptionID w).2.invoked).2)
        else
          UpdateSubscriptionDoc.loop d J subscriptionID callback pk tries
            (some (.Errorf "failed to replace Subscriptions container item for" subscriptionID
              (.sdk err)))
            (d.subscriptions.replaceItem pk (callback doc).2.ID data
              ⟨some (callback doc).2.CosmosETag⟩ (GetSubscriptionDoc d J subscriptionID w).2.invoked).2 := by
  rcases hg : GetSubscriptionDoc d J subscriptionID w with ⟨res, w1⟩
  rw [hg] at hfetch hreplace
  simp only at hfetch hreplace
  subst hfetch
  rcases hc : callback doc with ⟨changed, doc2⟩
  rw [hc] at hcb hdata hreplace
  simp only at hcb hdata hreplace
  subst hcb
  simp only [UpdateSubscriptionDoc.loop, hg, hc, hdata, ContainerClient.replaceItem, World.invoked,
    hreplace, GoError.asResponseError]
  simp

theorem UpdateSubscriptionDoc_loop_contended (d : cosmosDBClient σ B) (J : JSON B)
    (subscriptionID : String) (callback : SubscriptionDocument → Bool × SubscriptionDocument)
    (pk : PartitionKey)
    (hfetch : ∀ w : World σ B, ∃ doc, (GetSubscriptionDoc d J subscriptionID w).1 = .ok doc)
    (hcb : ∀ doc, (callback doc).1 = true)
    (hdata : ∀ doc, ∃ data, J.MarshalSubscription doc = .ok data)
    (hreplace : ∀ pk itemId data options s, ∃ err,
      (d.subscriptions.ReplaceItem pk itemId data options s).1 = some err ∧
        err.asResponseError = some StatusPreconditionFailed) :
    ∀ (tries : Nat) (err0 : Option GoError) (w : World σ B),
      (UpdateSubscriptionDoc.loop d J subscriptionID callback pk tries err0 w).1.1 = false ∧
      (UpdateSubscriptionDoc.loop d J subscriptionID callback pk tries err0 w).2.trace.countP Event.isFetch
        = w.trace.countP Event.isFetch + tries ∧
      (UpdateSubscriptionDoc.loop d J subscriptionID callback pk tries err0 w).2.trace.countP Event.isCallback
        = w.trace.countP Event.isCallback + tries ∧
      (UpdateSubscriptionDoc.loop d J subscriptionID callback pk tries err0 w).2.trace.countP Event.isReplace
        = w.trace.countP Event.isReplace + tries ∧
      (UpdateSubscriptionDoc.loop d J subscriptionID callback pk tries err0 w).2.trace.length
        = w.trace.length + 3 * tries ∧
      (0 < tries → ∃ itemId data options err,
        (UpdateSubscriptionDoc.loop d J subscriptionID callback pk tries err0 w).2.trace.getLast?
          = some (Event.ReplaceItem d.subscriptions.id pk itemId data options (some err)) ∧
        err.asResponseError = some StatusPreconditionFailed ∧
        (UpdateSubscriptionDoc.loop d J subscriptionID callback pk tries err0 w).1.2
          = some (.Errorf "failed to replace Subscriptions container item for" subscriptionID
              (.sdk err))) := by
  intro tries
  induction tries with
  | zero => intro err0 w; simp [UpdateSubscriptionDoc.loop]
  | succ n ih =>
    intro err0 w
    obtain ⟨doc, hdoc⟩ := hfetch w
    obtain ⟨data, hd⟩ := hdata (callback doc).2
    obtain ⟨err, herr, h412⟩ := hreplace pk (callback doc).2.ID data
      ⟨some (callback doc).2.CosmosETag⟩ (GetSubscriptionDoc d J subscriptionID w).2.state
    rw [UpdateSubscriptionDoc_loop_replace_error d J subscriptionID callback pk n err0 w doc data err hdoc
      (hcb doc) hd herr]
    simp only [h412, ne_eq, not_true_eq_false, if_false]
    have htrace : (d.subscriptions.replaceItem pk (callback doc).2.ID data
        ⟨some (callback doc).2.CosmosETag⟩ (GetSubscriptionDoc d J subscriptionID w).2.invoked).2.trace
        = w.trace ++ [GetSubscriptionDoc.event d subscriptionID, Event.callback,
            Event.ReplaceItem d.subscriptions.id pk (callback doc).2.ID data
              ⟨some (callback doc).2.CosmosETag⟩ (some err)] := by
      simp [ContainerClient.replaceItem, World.invoked, GetSubscriptionDoc_trace, herr]
    obtain ⟨h1, h2, h3, h4, h5, h6⟩ := ih
      (some (.Errorf "failed to replace Subscriptions container item for" subscriptionID (.sdk err)))
      (d.subscriptions.replaceItem pk (callback doc).2.ID data
        ⟨some (callback doc).2.CosmosETag⟩ (GetSubscriptionDoc d J subscriptionID w).2.invoked).2
    rw [htrace] at h2 h3 h4 h5
    refine ⟨h1, ?_, ?_, ?_, ?_, fun _ => ?_⟩
    · rw [h2]
      simp [List.countP_append, List.countP_cons, GetSubscriptionDoc.event, Event.isFetch]
      omega
    · rw [h3]
      simp [List.countP_append, List.countP_cons, GetSubscriptionDoc.event, Event.isCallback]
      omega
    · rw [h4]
      simp [List.countP_append, List.countP_cons, GetSubscriptionDoc.event, Event.isReplace]
      omega
    · rw [h5]
      simp
      omega
    · rcases Nat.eq_zero_or_pos n with hn | hn
      · subst hn
        refine ⟨(callback doc).2.ID, data, ⟨some (callback doc).2.CosmosETag⟩, err, ?_, h412, ?_⟩
        · simp [UpdateSubscriptionDoc.loop, htrace]
        · simp [UpdateSubscriptionDoc.loop]
      · exact h6 hn

/-- C2. Retry bound: for each of the three update operations, if every fetch
succeeds, the callback always returns true and every conditional replace is
refused with HTTP 412, then update makes exactly 5 fetches, 5 callback
invocations and 5 replace calls and nothing else, and returns `(false, err)`
where `err` wraps the precondition failure of the last replace. -/
theorem update_gives_up_after_five_attempts (d : cosmosDBClient σ B) (J : JSON B) :
    (∀ (r : ResourceID) (callback : ResourceDocument → Bool × ResourceDocument) (w : World σ B),
      (∀ w' : World σ B, ∃ doc, (GetResourceDoc d J r w').1 = .ok doc) →
      (∀ doc, (callback doc).1 = true) →
      (∀ doc, ∃ data, J.MarshalResource doc = .ok data) →
      (∀ pk itemId data options s, ∃ err,
        (d.resources.ReplaceItem pk itemId data options s).1 = some err ∧
          err.asResponseError = some StatusPreconditionFailed) →
      (UpdateResourceDoc d J r callback w).1.1 = false ∧
      (UpdateResourceDoc d J r callback w).2.trace.countP Event.isFetch
        = w.trace.countP Event.isFetch + 5 ∧
      (UpdateResourceDoc d J r callback w).2.trace.countP Event.isCallback
        = w.trace.countP Event.isCallback + 5 ∧
      (UpdateResourceDoc d J r callback w).2.trace.countP Event.isReplace
        = w.trace.countP Event.isReplace + 5 ∧
      (UpdateResourceDoc d J r callback w).2.trace.length = w.trace.length + 15 ∧
      ∃ pk itemId data options err,
        (UpdateResourceDoc d J r callback w).2.trace.getLast?
          = some (Event.ReplaceItem d.resources.id pk itemId data options (some err)) ∧
        err.asResponseError = some StatusPreconditionFailed ∧
        (UpdateResourceDoc d J r callback w).1.2
          = some (.Errorf "failed to replace Resources container item for" r.String
              (.sdk err))) ∧
    (∀ (operationID : String) (callback : OperationDocument → Bool × OperationDocument) (w : World σ B),
      (∀ w' : World σ B, ∃ doc, (GetOperationDoc d J operationID w').1 = .ok doc) →
      (∀ doc, (callback doc).1 = true) →
      (∀ doc, ∃ data, J.MarshalOperation doc = .ok data) →
      (∀ pk itemId data options s, ∃ err,
        (d.operations.ReplaceItem pk itemId data options s).1 = some err ∧
          err.asResponseError = some StatusPreconditionFailed) →
      (UpdateOperationDoc d J operationID callback w).1.1 = false ∧
      (UpdateOperationDoc d J operationID callback w).2.trace.countP Event.isFetch
        = w.trace.countP Event.isFetch + 5 ∧
      (UpdateOperationDoc d J operationID callback w).2.trace.countP Event.isCallback
        = w.trace.countP Event.isCallback + 5 ∧
      (UpdateOperationDoc d J operationID callback w).2.trace.countP Event.isReplace
        = w.trace.countP Event.isReplace + 5 ∧
      (UpdateOperationDoc d J operationID callback w).2.trace.length = w.trace.length + 15 ∧
      ∃ pk itemId data options err,
        (UpdateOperationDoc d J operationID callback w).2.trace.getLast?
          = some (Event.ReplaceItem d.operations.id pk itemId data options (some err)) ∧
        err.asResponseError = some StatusPreconditionFailed ∧
        (UpdateOperationDoc d J operationID callback w).1.2
          = some (.Errorf "failed to replace Operations container item for" operationID
              (.sdk err))) ∧
    (∀ (subscriptionID : String) (callback : SubscriptionDocument → Bool × SubscriptionDocument) (w : World σ B),
      (∀ w' : World σ B, ∃ doc, (GetSubscriptionDoc d J subscriptionID w').1 = .ok doc) →
      (∀ doc, (callback doc).1 = true) →
      (∀ doc, ∃ data, J.MarshalSubscription doc = .ok data) →
      (∀ pk itemId data options s, ∃ err,
        (d.subscriptions.ReplaceItem pk itemId data options s).1 = some err ∧
          err.asResponseError = some StatusPreconditionFailed) →
      (UpdateSubscriptionDoc d J subscriptionID callback w).1.1 = false ∧
      (UpdateSubscriptionDoc d J subscriptionID callback w).2.trace.countP Event.isFetch
        = w.trace.countP Event.isFetch + 5 ∧
      (UpdateSubscriptionDoc d J subscriptionID callback w).2.trace.countP Event.isCallback
        = w.trace.countP Event.isCallback + 5 ∧
      (UpdateSubscriptionDoc d J subscriptionID callback w).2.trace.countP Event.isReplace
        = w.trace.countP Event.isReplace + 5 ∧
      (UpdateSubscriptionDoc d J subscriptionID callback w).2.trace.length = w.trace.length + 15 ∧
      ∃ pk itemId data options err,
        (UpdateSubscriptionDoc d J subscriptionID callback w).2.trace.getLast?
          = some (Event.ReplaceItem d.subscriptions.id pk itemId data options (some err)) ∧
        err.asResponseError = some StatusPreconditionFailed ∧
        (UpdateSubscriptionDoc d J subscriptionID callback w).1.2
          = some (.Errorf "failed to replace Subscriptions container item for" subscriptionID
              (.sdk err))) := by
  refine ⟨fun r callback w hfetch hcb hdata hreplace => ?_,
    fun operationID callback w hfetch hcb hdata hreplace => ?_,
    fun subscriptionID callback w hfetch hcb hdata hreplace => ?_⟩
  · obtain ⟨h1, h2, h3, h4, h5, h6⟩ := UpdateResourceDoc_loop_contended d J r callback
      (NewPartitionKey r.SubscriptionID) hfetch hcb hdata hreplace 5 none w
    obtain ⟨itemId, data, options, err, h7⟩ := h6 (by decide)
    exact ⟨h1, h2, h3, h4, h5, _, itemId, data, options, err, h7⟩
  · obtain ⟨h1, h2, h3, h4, h5, h6⟩ := UpdateOperationDoc_loop_contended d J operationID
      callback (NewPartitionKey operationsPartitionKey) hfetch hcb hdata hreplace 5 none w
    obtain ⟨itemId, data, options, err, h7⟩ := h6 (by decide)
    exact ⟨h1, h2, h3, h4, h5, _, itemId, data, options, err, h7⟩
  · obtain ⟨h1, h2, h3, h4, h5, h6⟩ := UpdateSubscriptionDoc_loop_contended d J subscriptionID
      callback (NewPartitionKey subscriptionID) hfetch hcb hdata hreplace 5 none w
    obtain ⟨itemId, data, options, err, h7⟩ := h6 (by decide)
    exact ⟨h1, h2, h3, h4, h5, _, itemId, data, options, err, h7⟩

theorem UpdateResourceDoc_loop_marshal_error (d : cosmosDBClient σ B) (J : JSON B)
    (r : ResourceID) (callback : ResourceDocument → Bool × ResourceDocument)
    (pk : PartitionKey) (tries : Nat) (err0 : Option GoError) (w : World σ B)
    (doc : ResourceDocument) (err : SdkError)
    (hfetch : (GetResourceDoc d J r w).1 = .ok doc)
    (hcb : (callback doc).1 = true)
    (hdata : J.MarshalResource (callback doc).2 = .error err) :
    UpdateResourceDoc.loop d J r callback pk (tries + 1) err0 w
      = ((false, some (.Errorf "failed to marshal Resources container item for" r.String
          (.sdk err))), (GetResourceDoc d J r w).2.invoked) := by
  rcases hg : GetResourceDoc d J r w with ⟨res, w1⟩
  rw [hg] at hfetch
  simp only at hfetch
  subst hfetch
  rcases hc : callback doc with ⟨changed, doc2⟩
  rw [hc] at hcb hdata
  simp only at hcb hdata
  subst hcb
  simp [UpdateResourceDoc.loop, hg, hc, hdata]

theorem UpdateOperationDoc_loop_marshal_error (d : cosmosDBClient σ B) (J : JSON B)
    (operationID : String) (callback : OperationDocument → Bool × OperationDocument)
    (pk : PartitionKey) (tries : Nat) (err0 : Option GoError) (w : World σ B)
    (doc : OperationDocument) (err : SdkError)
    (hfetch : (GetOperationDoc d J operationID w).1 = .ok doc)
    (hcb : (callback doc).1 = true)
    (hdata : J.MarshalOperation (callback doc).2 = .error err) :
    UpdateOperationDoc.loop d J operationID callback pk (tries + 1) err0 w
      = ((false, some (.Errorf "failed to marshal Operations container item for" operationID
          (.sdk err))), (GetOperationDoc d J operationID w).2.invoked) := by
  rcases hg : GetOperationDoc d J operationID w with ⟨res, w1⟩
  rw [hg] at hfetch
  simp only at hfetch
  subst hfetch
  rcases hc : callback doc with ⟨changed, doc2⟩
  rw [hc] at hcb hdata
  simp only at hcb hdata
  subst hcb
  simp [UpdateOperationDoc.loop, hg, hc, hdata]

theorem UpdateSubscriptionDoc_loop_marshal_error (d : cosmosDBClient σ B) (J : JSON B)
    (subscriptionID : String) (callback : SubscriptionDocument → Bool × SubscriptionDocument)
    (pk : PartitionKey) (tries : Nat) (err0 : Option GoError) (w : World σ B)
    (doc : SubscriptionDocument) (err : SdkError)
    (hfetch : (GetSubscriptionDoc d J subscriptionID w).1 = .ok doc)
    (hcb : (callback doc).1 = true)
    (hdata : J.MarshalSubscription (callback doc).2 = .error err) :
    UpdateSubscriptionDoc.loop d J subscriptionID callback pk (tries + 1) err0 w
      = ((false, some (.Errorf "failed to marshal Subscriptions container item for" subscriptionID
          (.sdk err))), (GetSubscriptionDoc d J subscriptionID w).2.invoked) := by
  rcases hg : GetSubscriptionDoc d J subscriptionID w with ⟨res, w1⟩
  rw [hg] at hfetch
  simp only at hfetch
  subst hfetch
  rcases hc : callback doc with ⟨changed, doc2⟩
  rw [hc] at hcb hdata
  simp only at hcb hdata
  subst hcb
  simp [UpdateSubscriptionDoc.loop, hg, hc, hdata]

/-- C4. Fatal failures: at any attempt of any of the three update loops, a
failing fetch, `ErrNotFound` included, ends the update with `(false, that
error)` after the fetch alone (no callback, no write); a document that cannot
be encoded ends it with `(false, wrapped error)` after the fetch and the
callback (no write); and a replace that fails with anything but an HTTP 412
response error ends it with `(false, wrapped error)` after that replace (no
further fetch, callback or replace).  Each update operation is its loop with 5
tries left (the last three parts). -/
theorem update_fails_fast_on_other_errors (d : cosmosDBClient σ B) (J : JSON B) :
    (∀ (r : ResourceID) (callback : ResourceDocument → Bool × ResourceDocument)
        (pk : PartitionKey) (tries : Nat) (err0 : Option GoError) (w : World σ B),
      (∀ err : GoError, (GetResourceDoc d J r w).1 = .error err →
        (UpdateResourceDoc.loop d J r callback pk (tries + 1) err0 w).1
          = (false, some err) ∧
        (UpdateResourceDoc.loop d J r callback pk (tries + 1) err0 w).2.trace
          = w.trace ++ [GetResourceDoc.event d r]) ∧
      (∀ (doc : ResourceDocument) (err : SdkError),
        (GetResourceDoc d J r w).1 = .ok doc →
        (callback doc).1 = true →
        J.MarshalResource (callback doc).2 = .error err →
        (UpdateResourceDoc.loop d J r callback pk (tries + 1) err0 w).1
          = (false, some (.Errorf "failed to marshal Resources container item for" r.String
              (.sdk err))) ∧
        (UpdateResourceDoc.loop d J r callback pk (tries + 1) err0 w).2.trace
          = w.trace ++ [GetResourceDoc.event d r, Event.callback]) ∧
      (∀ (doc : ResourceDocument) (data : B) (err : SdkError),
        (GetResourceDoc d J r w).1 = .ok doc →
        (callback doc).1 = true →
        J.MarshalResource (callback doc).2 = .ok data →
        (d.resources.ReplaceItem pk (callback doc).2.ID data
          ⟨some (callback doc).2.CosmosETag⟩ (GetResourceDoc d J r w).2.state).1 = some err →
        err.asResponseError ≠ some StatusPreconditionFailed →
        (UpdateResourceDoc.loop d J r callback pk (tries + 1) err0 w).1
          = (false, some (.Errorf "failed to replace Resources container item for" r.String
              (.sdk err))) ∧
        (UpdateResourceDoc.loop d J r callback pk (tries + 1) err0 w).2.trace
          = w.trace ++ [GetResourceDoc.event d r, Event.callback,
              Event.ReplaceItem d.resources.id pk (callback doc).2.ID data
                ⟨some (callback doc).2.CosmosETag⟩ (some err)])) ∧
    (∀ (operationID : String) (callback : OperationDocument → Bool × OperationDocument)
        (pk : PartitionKey) (tries : Nat) (err0 : Option GoError) (w : World σ B),
      (∀ err : GoError, (GetOperationDoc d J operationID w).1 = .error err →
        (UpdateOperationDoc.loop d J operationID callback pk (tries + 1) err0 w).1
          = (false, some err) ∧
        (UpdateOperationDoc.loop d J operationID callback pk (tries + 1) err0 w).2.trace
          = w.trace ++ [GetOperationDoc.event d operationID]) ∧
      (∀ (doc : OperationDocument) (err : SdkError),
        (GetOperationDoc d J operationID w).1 = .ok doc →
        (callback doc).1 = true →
        J.MarshalOperation (callback doc).2 = .error err →
        (UpdateOperationDoc.loop d J operationID callback pk (tries + 1) err0 w).1
          = (false, some (.Errorf "failed to marshal Operations container item for" operationID
              (.sdk err))) ∧
        (UpdateOperationDoc.loop d J operationID callback pk (tries + 1) err0 w).2.trace
          = w.trace ++ [GetOperationDoc.event d operationID, Event.callback]) ∧
      (∀ (doc : OperationDocument) (data : B) (err : SdkError),
        (GetOperationDoc d J operationID w).1 = .ok doc →
        (callback doc).1 = true →
        J.MarshalOperation (callback doc).2 = .ok data →
        (d.operations.ReplaceItem pk (callback doc).2.ID data
          ⟨some (callback doc).2.CosmosETag⟩ (GetOperationDoc d J operationID w).2.state).1 = some err →
        err.asResponseError ≠ some StatusPreconditionFailed →
        (UpdateOperationDoc.loop d J operationID callback pk (tries + 1) err0 w).1
          = (false, some (.Errorf "failed to replace Operations container item for" operationID
              (.sdk err))) ∧
        (UpdateOperationDoc.loop d J operationID callback pk (tries + 1) err0 w).2.trace
          = w.trace ++ [GetOperationDoc.event d operationID, Event.callback,
              Event.ReplaceItem d.operations.id pk (callback doc).2.ID data
                ⟨some (callback doc).2.CosmosETag⟩ (some err)])) ∧
    (∀ (subscriptionID : String) (callback : SubscriptionDocument → Bool × SubscriptionDocument)
        (pk : PartitionKey) (tries : Nat) (err0 : Option GoError) (w : World σ B),
      (∀ err : GoError, (GetSubscriptionDoc d J subscriptionID w).1 = .error err →
        (UpdateSubscriptionDoc.loop d J subscriptionID callback pk (tries + 1) err0 w).1
          = (false, some err) ∧
        (UpdateSubscriptionDoc.loop d J subscriptionID callback pk (tries + 1) err0 w).2.trace
          = w.trace ++ [GetSubscriptionDoc.event d subscriptionID]) ∧
      (∀ (doc : SubscriptionDocument) (err : SdkError),
        (GetSubscriptionDoc d J subscriptionID w).1 = .ok doc →
        (callback doc).1 = true →
        J.MarshalSubscription (callback doc).2 = .error err →
        (UpdateSubscriptionDoc.loop d J subscriptionID callback pk (tries + 1) err0 w).1
          = (false, some (.Errorf "failed to marshal Subscriptions container item for" subscriptionID
              (.sdk err))) ∧
        (UpdateSubscriptionDoc.loop d J subscriptionID callback pk (tries + 1) err0 w).2.trace
          = w.trace ++ [GetSubscriptionDoc.event d subscriptionID, Event.callback]) ∧
      (∀ (doc : SubscriptionDocument) (data : B) (err : SdkError),
        (GetSubscriptionDoc d J subscriptionID w).1 = .ok doc →
        (callback doc).1 = true →
        J.MarshalSubscription (callback doc).2 = .ok data →
        (d.subscriptions.ReplaceItem pk (callback doc).2.ID data
          ⟨some (callback doc).2.CosmosETag⟩ (GetSubscriptionDoc d J subscriptionID w).2.state).1 = some err →
        err.asResponseError ≠ some StatusPreconditionFailed →
        (UpdateSubscriptionDoc.loop d J subscriptionID callback pk (tries + 1) err0 w).1
          = (false, some (.Errorf "failed to replace Subscriptions container item for" subscriptionID
              (.sdk err))) ∧
        (UpdateSubscriptionDoc.loop d J subscriptionID callback pk (tries + 1) err0 w).2.trace
          = w.trace ++ [GetSubscriptionDoc.event d subscriptionID, Event.callback,
              Event.ReplaceItem d.subscriptions.id pk (callback doc).2.ID data
                ⟨some (callback doc).2.CosmosETag⟩ (some err)])) ∧
    (∀ (r : ResourceID) (callback : ResourceDocument → Bool × ResourceDocument) (w : World σ B),
      UpdateResourceDoc d J r callback w
        = UpdateResourceDoc.loop d J r callback (NewPartitionKey r.SubscriptionID) 5 none w) ∧
    (∀ (operationID : String) (callback : OperationDocument → Bool × OperationDocument)
        (w : World σ B),
      UpdateOperationDoc d J operationID callback w
        = UpdateOperationDoc.loop d J operationID callback
            (NewPartitionKey operationsPartitionKey) 5 none w) ∧
    (∀ (subscriptionID : String)
        (callback : SubscriptionDocument → Bool × SubscriptionDocument) (w : World σ B),
      UpdateSubscriptionDoc d J subscriptionID callback w
        = UpdateSubscriptionDoc.loop d J subscriptionID callback
            (NewPartitionKey subscriptionID) 5 none w) := by
  refine ⟨fun r callback pk tries err0 w => ?_,
    fun operationID callback pk tries err0 w => ?_,
    fun subscriptionID callback pk tries err0 w => ?_,
    fun _ _ _ => rfl, fun _ _ _ => rfl, fun _ _ _ => rfl⟩
  · refine ⟨fun err hfetch => ?_, fun doc err hfetch hcb hdata => ?_,
      fun doc data err hfetch hcb hdata hreplace hne => ?_⟩
    · rw [UpdateResourceDoc_loop_fetch_error d J r callback pk tries err0 w err hfetch]
      exact ⟨rfl, GetResourceDoc_trace d J r w⟩
    · rw [UpdateResourceDoc_loop_marshal_error d J r callback pk tries err0 w doc err
        hfetch hcb hdata]
      refine ⟨rfl, ?_⟩
      simp [World.invoked, GetResourceDoc_trace]
    · rw [UpdateResourceDoc_loop_replace_error d J r callback pk tries err0 w doc data err
        hfetch hcb hdata hreplace, if_pos hne]
      refine ⟨rfl, ?_⟩
      simp [ContainerClient.replaceItem, World.invoked, GetResourceDoc_trace, hreplace]
  · refine ⟨fun err hfetch => ?_, fun doc err hfetch hcb hdata => ?_,
      fun doc data err hfetch hcb hdata hreplace hne => ?_⟩
    · rw [UpdateOperationDoc_loop_fetch_error d J operationID callback pk tries err0 w err hfetch]
      exact ⟨rfl, GetOperationDoc_trace d J operationID w⟩
    · rw [UpdateOperationDoc_loop_marshal_error d J operationID callback pk tries err0 w doc err
        hfetch hcb hdata]
      refine ⟨rfl, ?_⟩
      simp [World.invoked, GetOperationDoc_trace]
    · rw [UpdateOperationDoc_loop_replace_error d J operationID callback pk tries err0 w doc data err
        hfetch hcb hdata hreplace, if_pos hne]
      refine ⟨rfl, ?_⟩
      simp [ContainerClient.replaceItem, World.invoked, GetOperationDoc_trace, hreplace]
  · refine ⟨fun err hfetch => ?_, fun doc err hfetch hcb hdata => ?_,
      fun doc data err hfetch hcb hdata hreplace hne => ?_⟩
    · rw [UpdateSubscriptionDoc_loop_fetch_error d J subscriptionID callback pk tries err0 w err hfetch]
      exact ⟨rfl, GetSubscriptionDoc_trace d J subscriptionID w⟩
    · rw [UpdateSubscriptionDoc_loop_marshal_error d J subscriptionID callback pk tries err0 w doc err
        hfetch hcb hdata]
      refine ⟨rfl, ?_⟩
      simp [World.invoked, GetSubscriptionDoc_trace]
    · rw [UpdateSubscriptionDoc_loop_replace_error d J subscriptionID callback pk tries err0 w doc data err
        hfetch hcb hdata hreplace, if_pos hne]
      refine ⟨rfl, ?_⟩
      simp [ContainerClient.replaceItem, World.invoked, GetSubscriptionDoc_trace, hreplace]

end Update

theorem UpdateResourceDoc.loop_attempt {σ B : Type} (d : cosmosDBClient σ B) (J : JSON B)
    (r : ResourceID) (callback : ResourceDocument → Bool × ResourceDocument)
    (pk : PartitionKey) (tries : Nat) (err0 : Option GoError) (w w1 : World σ B)
    (doc doc2 : ResourceDocument) (data : B) (err : Option SdkError) (s2 : σ)
    (hfetch : GetResourceDoc d J r w = (.ok doc, w1))
    (hcb : callback doc = (true, doc2))
    (hdata : J.MarshalResource doc2 = .ok data)
    (hreplace : d.resources.ReplaceItem pk doc2.ID data ⟨some doc2.CosmosETag⟩ w1.state
      = (err, s2)) :
    UpdateResourceDoc.loop d J r callback pk (tries + 1) err0 w
      = match err with
        | none =>
          ((true, none),
            ⟨s2, w1.trace ++ [Event.callback,
              Event.ReplaceItem d.resources.id pk doc2.ID data ⟨some doc2.CosmosETag⟩ none]⟩)
        | some e =>
          if e.asResponseError ≠ some StatusPreconditionFailed then
            ((false, some (.Errorf "failed to replace Resources container item for" r.String
              (.sdk e))),
              ⟨s2, w1.trace ++ [Event.callback,
                Event.ReplaceItem d.resources.id pk doc2.ID data ⟨some doc2.CosmosETag⟩
                  (some e)]⟩)
          else
            UpdateResourceDoc.loop d J r callback pk tries
              (some (.Errorf "failed to replace Resources container item for" r.String
                (.sdk e)))
              ⟨s2, w1.trace ++ [Event.callback,
                Event.ReplaceItem d.resources.id pk doc2.ID data ⟨some doc2.CosmosETag⟩
                  (some e)]⟩ := by
  cases err with
  | none =>
    simp [UpdateResourceDoc.loop, hfetch, hcb, hdata, ContainerClient.replaceItem,
      World.invoked, hreplace]
  | some e =>
    simp [UpdateResourceDoc.loop, hfetch, hcb, hdata, ContainerClient.replaceItem,
      World.invoked, hreplace, GoError.asResponseError]

/-! ## Concurrent writers -/

section Contention

end Contention

/-! ## Creation -/

section Create

variable {σ B : Type}

theorem isLower_ToLower (s : String) : isLower (ToLower s) = true := by
  simp only [isLower, ToLower, List.all_eq_true, List.mem_map, forall_exists_index, and_imp,
    forall_apply_eq_imp_iff₂, Bool.not_eq_true', List.any_eq_false]
  intro c _ r2 hr2
  simp [toLowerRune_not_covered c r2 hr2]

/-- C8, as the code has it. Every create operation hands the store a lower-case
partition key.  `CreateResourceDoc` makes one `CreateItem` call: its payload
encodes the caller's document with the partition-key field lower-cased and
every other field (id and resource identifier included) as supplied, and its
partition key argument is that lower-cased field.  `CreateOperationDoc` makes
one `CreateItem` call with the caller's document in the fixed lower-case
partition.  `CreateSubscriptionDoc` makes one `CreateItem` call whose payload
encodes the document with its id replaced by the lower-cased subscription
identifier, in the partition of that id, and then indexes that id.  Nothing is
handed to the store when the document cannot be encoded. -/
theorem create_persists_lower_case_keys (d : cosmosDBClient σ B) (J : JSON B) (s : σ) :
    (∀ doc : ResourceDocument,
      isLower (ToLower doc.PartitionKey) = true ∧
      NewPartitionKey (ToLower doc.PartitionKey) = ⟨ToLower doc.PartitionKey⟩ ∧
      (∀ data : B,
        J.MarshalResource { doc with PartitionKey := ToLower doc.PartitionKey } = .ok data →
        (CreateResourceDoc d J doc ⟨s, []⟩).2.trace
          = [Event.CreateItem d.resources.id (NewPartitionKey (ToLower doc.PartitionKey)) data
              (d.resources.CreateItem (NewPartitionKey (ToLower doc.PartitionKey)) data s).1] ∧
        (CreateResourceDoc d J doc ⟨s, []⟩).1.2
          = { doc with PartitionKey := ToLower doc.PartitionKey }) ∧
      (∀ err : SdkError,
        J.MarshalResource { doc with PartitionKey := ToLower doc.PartitionKey } = .error err →
        (CreateResourceDoc d J doc ⟨s, []⟩).2.trace = [])) ∧
    (∀ doc : OperationDocument,
      isLower (NewPartitionKey operationsPartitionKey).value = true ∧
      NewPartitionKey operationsPartitionKey = ⟨"workaround"⟩ ∧
      (∀ data : B, J.MarshalOperation doc = .ok data →
        (CreateOperationDoc d J doc ⟨s, []⟩).2.trace
          = [Event.CreateItem d.operations.id (NewPartitionKey operationsPartitionKey) data
              (d.operations.CreateItem (NewPartitionKey operationsPartitionKey) data s).1]) ∧
      (∀ err : SdkError, J.MarshalOperation doc = .error err →
        (CreateOperationDoc d J doc ⟨s, []⟩).2.trace = [])) ∧
    (∀ (subscriptionID : String) (doc : SubscriptionDocument),
      isLower (ToLower subscriptionID) = true ∧
      NewPartitionKey (ToLower subscriptionID) = ⟨ToLower subscriptionID⟩ ∧
      (∀ data : B,
        J.MarshalSubscription { doc with ID := ToLower subscriptionID } = .ok data →
        (CreateSubscriptionDoc d J subscriptionID doc ⟨s, []⟩).2.trace
          = Event.CreateItem d.subscriptions.id (NewPartitionKey (ToLower subscriptionID)) data
              (d.subscriptions.CreateItem (NewPartitionKey (ToLower subscriptionID)) data s).1
            :: (match d.subscriptions.CreateItem (NewPartitionKey (ToLower subscriptionID))
                  data s with
                | (some _, _) => []
                | (none, s1) =>
                  [Event.upsertPartitionKey (ToLower subscriptionID)
                    (d.upsertPartitionKey (ToLower subscriptionID) s1).1]) ∧
        (CreateSubscriptionDoc d J subscriptionID doc ⟨s, []⟩).1.2
          = { doc with ID := ToLower subscriptionID }) ∧
      (∀ err : SdkError,
        J.MarshalSubscription { doc with ID := ToLower subscriptionID } = .error err →
        (CreateSubscriptionDoc d J subscriptionID doc ⟨s, []⟩).2.trace = [])) := by
  have hkey : ∀ t : String, NewPartitionKey (ToLower t) = ⟨ToLower t⟩ := by
    intro t
    simp [NewPartitionKey, NewPartitionKeyString, ToLower_idem]
  refine ⟨fun doc => ⟨isLower_ToLower _, hkey _, fun data hm => ?_, fun err hm => ?_⟩,
    fun doc => ⟨isLower_ToLower _, by decide, fun data hm => ?_, fun err hm => ?_⟩,
    fun subscriptionID doc =>
      ⟨isLower_ToLower _, hkey _, fun data hm => ?_, fun err hm => ?_⟩⟩
  · simp only [CreateResourceDoc, ContainerClient.createItem, hm]
    split <;> exact ⟨rfl, rfl⟩
  · simp only [CreateResourceDoc, hm]
  · simp only [CreateOperationDoc, ContainerClient.createItem, hm]
    split <;> rfl
  · simp only [CreateOperationDoc, hm]
  · simp only [CreateSubscriptionDoc, ContainerClient.createItem, cosmosDBClient.upsert, hm]
    rcases hc : d.subscriptions.CreateItem (NewPartitionKey (ToLower subscriptionID)) data s
      with ⟨res, s1⟩
    cases res with
    | some e => exact ⟨rfl, rfl⟩
    | none =>
      simp only
      split <;> exact ⟨rfl, rfl⟩
  · simp only [CreateSubscriptionDoc, hm]

theorem MemStore.indexed_iff (s : MemStore) :
    s.indexed = true ↔
      ∀ it ∈ s.items, it.container = .Subscriptions →
        ∃ e ∈ s.items, e.container = .PartitionKeys ∧ e.body.id = it.pk.value := by
  simp only [MemStore.indexed, List.all_eq_true, Bool.or_eq_true, bne_iff_ne, ne_eq,
    List.any_eq_true, Bool.and_eq_true, beq_iff_eq]
  constructor
  · intro h it hit hc
    rcases h it hit with h1 | h1
    · exact absurd hc h1
    · exact h1
  · intro h it hit
    by_cases hc : it.container = .Subscriptions
    · exact Or.inr (h it hit hc)
    · exact Or.inl hc

theorem Payload.id_withETag (e : ETag) (b : Payload) : (b.withETag e).id = b.id := by
  cases b <;> rfl

theorem Payload.id_edit (m : Fields → Fields) (b : Payload) : (b.edit m).id = b.id := by
  cases b <;> rfl

theorem MemStore.arrive_items (s : MemStore) :
    ∃ f : Stored → Stored, s.arrive.2.items = s.items.map f ∧
      ∀ it, (f it).container = it.container ∧ (f it).pk = it.pk ∧
        (f it).body.id = it.body.id := by
  unfold MemStore.arrive
  split
  · exact ⟨id, by simp, fun _ => ⟨rfl, rfl, rfl⟩⟩
  · exact ⟨id, by simp, fun _ => ⟨rfl, rfl, rfl⟩⟩
  · exact ⟨id, by simp, fun _ => ⟨rfl, rfl, rfl⟩⟩
  · rename_i c pk itemId m script _
    split
    · exact ⟨id, by simp, fun _ => ⟨rfl, rfl, rfl⟩⟩
    · rename_i it0 hfind
      have h0 : MemStore.addresses c pk itemId it0 = true := by
        simp only [MemStore.find] at hfind
        exact List.find?_some hfind
      refine ⟨fun it => if MemStore.addresses c pk itemId it = true
          then ⟨c, pk, (it0.body.edit m).withETag s.clock⟩ else it, rfl, fun it => ?_⟩
      by_cases h : MemStore.addresses c pk itemId it = true
      · simp only [h, if_true, Payload.id_withETag, Payload.id_edit]
        simp only [MemStore.addresses, Bool.and_eq_true, beq_iff_eq] at h h0
        exact ⟨h.1.1.symm, h.1.2.symm, h0.2.trans h.2.symm⟩
      · simp [h]

theorem MemStore.indexedBut_map (key : String) (items : List Stored) (f : Stored → Stored)
    (hf : ∀ it, (f it).container = it.container ∧ (f it).pk = it.pk ∧
      (f it).body.id = it.body.id)
    (h : MemStore.indexedBut key items) : MemStore.indexedBut key (items.map f) := by
  intro it hit hc
  obtain ⟨it0, hit0, rfl⟩ := List.mem_map.mp hit
  rw [(hf it0).1] at hc
  rcases h it0 hit0 hc with ⟨e, he, hec, heid⟩ | hkey
  · refine Or.inl ⟨f e, List.mem_map_of_mem f he, ?_, ?_⟩
    · rw [(hf e).1]; exact hec
    · rw [(hf e).2.2, (hf it0).2.1]; exact heid
  · right
    rw [(hf it0).2.1]
    exact hkey

theorem MemStore.indexedBut_arrive (key : String) (s : MemStore)
    (h : MemStore.indexedBut key s.items) : MemStore.indexedBut key s.arrive.2.items := by
  obtain ⟨f, hitems, hf⟩ := MemStore.arrive_items s
  rw [hitems]
  exact MemStore.indexedBut_map key s.items f hf h

theorem MemStore.indexedBut_append (key : String) (items : List Stored) (it : Stored)
    (hit : it.container = .Subscriptions → it.pk.value = key)
    (h : MemStore.indexedBut key items) : MemStore.indexedBut key (items ++ [it]) := by
  intro x hx hc
  rcases List.mem_append.mp hx with hx | hx
  · rcases h x hx hc with ⟨e, he, hec, heid⟩ | hkey
    · exact Or.inl ⟨e, List.mem_append_left _ he, hec, heid⟩
    · exact Or.inr hkey
  · simp only [List.mem_singleton] at hx
    subst hx
    exact Or.inr (hit hc)

theorem MemStore.indexed_of_indexedBut (key : String) (s : MemStore)
    (h : MemStore.indexedBut key s.items)
    (hkey : ∃ e ∈ s.items, e.container = .PartitionKeys ∧ e.body.id = key) :
    s.indexed = true := by
  rw [MemStore.indexed_iff]
  intro it hit hc
  rcases h it hit hc with h1 | h1
  · exact h1
  · rw [h1]; exact hkey

theorem MemStore.indexedBut_of_indexed (key : String) (s : MemStore) (h : s.indexed = true) :
    MemStore.indexedBut key s.items := by
  rw [MemStore.indexed_iff] at h
  exact fun it hit hc => Or.inl (h it hit hc)

theorem MemStore.create_cases (c : ContainerID) (pk : PartitionKey) (data : Payload)
    (s : MemStore) :
    (∃ err, MemStore.CreateItem c pk data s = (some err, s.arrive.2)) ∨
    (∃ s1 : MemStore, MemStore.CreateItem c pk data s = (none, s1) ∧
      s1.items = s.arrive.2.items ++ [⟨c, pk, data.withETag s.arrive.2.clock⟩]) := by
  unfold MemStore.CreateItem
  rcases harrive : s.arrive with ⟨fault, s1⟩
  cases fault with
  | some err => exact Or.inl ⟨err, rfl⟩
  | none =>
    simp only
    cases hfind : s1.find c pk data.id with
    | some _ => exact Or.inl ⟨_, rfl⟩
    | none => exact Or.inr ⟨_, rfl, rfl⟩

theorem MemStore.upsert_cases (key : String) (s : MemStore) :
    (∃ err, MemStore.upsertPartitionKey key s = (some err, s.arrive.2)) ∨
    (∃ s1 : MemStore, MemStore.upsertPartitionKey key s = (none, s1) ∧
      ∃ f : Stored → Stored, (∀ it, (f it).container = it.container ∧ (f it).pk = it.pk ∧
          (f it).body.id = it.body.id) ∧
        (s1.items = s.items.map f ∨
          s1.items = s.items.map f ++ [⟨.PartitionKeys, NewPartitionKey key, .partitionKey key⟩]) ∧
        ∃ e ∈ s1.items, e.container = .PartitionKeys ∧ e.body.id = key) := by
  unfold MemStore.upsertPartitionKey
  obtain ⟨f, hitems, hf⟩ := MemStore.arrive_items s
  rcases harrive : s.arrive with ⟨fault, s1⟩
  rw [harrive] at hitems
  simp only at hitems
  cases fault with
  | some err => exact Or.inl ⟨_, rfl⟩
  | none =>
    simp only
    cases hfind : s1.find .PartitionKeys (NewPartitionKey key) key with
    | some e =>
      have he : MemStore.addresses .PartitionKeys (NewPartitionKey key) key e = true := by
        simp only [MemStore.find] at hfind
        exact List.find?_some hfind
      have hmem : e ∈ s1.items := by
        simp only [MemStore.find] at hfind
        exact List.mem_of_find?_eq_some hfind
      simp only [MemStore.addresses, Bool.and_eq_true, beq_iff_eq] at he
      exact Or.inr ⟨s1, rfl, f, hf, Or.inl hitems, e, hmem, he.1.1, he.2⟩
    | none =>
      refine Or.inr ⟨_, rfl, f, hf, Or.inr (by simp [hitems]), _,
        List.mem_append_right _ (List.mem_singleton.mpr rfl), rfl, rfl⟩

/-- C9, as the code has it. Partition-index invariant on the in-memory store:
from a store in which every SubscriptionDocument's partition key has a
PartitionIndexEntry, a call to `CreateSubscriptionDoc` in which the index
upsert does not fail, whether it returns nil or fails at `CreateItem`, leaves a
store in which that still holds. -/
theorem CreateSubscriptionDoc_keeps_index (s : MemStore) (subscriptionID : String)
    (doc : SubscriptionDocument) (hindexed : s.indexed = true) :
    ((CreateSubscriptionDoc memClient memJSON subscriptionID doc ⟨s, []⟩).1.1 = none →
      (CreateSubscriptionDoc memClient memJSON subscriptionID doc ⟨s, []⟩).2.state.indexed
        = true) ∧
    ((∀ key err, Event.upsertPartitionKey key (some err)
        ∉ (CreateSubscriptionDoc memClient memJSON subscriptionID doc ⟨s, []⟩).2.trace) →
      (CreateSubscriptionDoc memClient memJSON subscriptionID doc ⟨s, []⟩).2.state.indexed
        = true) := by
  have hbut := MemStore.indexedBut_arrive (ToLower subscriptionID) s
    (MemStore.indexedBut_of_indexed _ s hindexed)
  have hsame : MemStore.indexedBut (ToLower subscriptionID) s.arrive.2.items →
      s.arrive.2.indexed = true := by
    intro _
    obtain ⟨f, hitems, hf⟩ := MemStore.arrive_items s
    have h0 : MemStore.indexedBut "" s.items := MemStore.indexedBut_of_indexed _ s hindexed
    have h1 := MemStore.indexedBut_map "" s.items f hf h0
    rw [← hitems] at h1
    rw [MemStore.indexed_iff]
    intro it hit hc
    rcases h1 it hit hc with h2 | h2
    · exact h2
    · rw [MemStore.indexed_iff] at hindexed
      rw [hitems] at hit
      obtain ⟨it0, hit0, rfl⟩ := List.mem_map.mp hit
      rw [(hf it0).1] at hc
      obtain ⟨e, he, hec, heid⟩ := hindexed it0 hit0 hc
      refine ⟨f e, by rw [hitems]; exact List.mem_map_of_mem f he, ?_, ?_⟩
      · rw [(hf e).1]; exact hec
      · rw [(hf e).2.2, (hf it0).2.1]; exact heid
  simp only [CreateSubscriptionDoc, memJSON, ContainerClient.createItem, memClient,
    MemStore.container, cosmosDBClient.upsert]
  rcases MemStore.create_cases .Subscriptions (NewPartitionKey (ToLower subscriptionID))
      (.subscription { doc with ID := ToLower subscriptionID }) s with
    ⟨err, hc⟩ | ⟨s1, hc, hitems⟩
  · simp only [hc]
    exact ⟨fun h => by simp at h, fun _ => hsame hbut⟩
  · simp only [hc]
    have hbut1 : MemStore.indexedBut (ToLower subscriptionID) s1.items := by
      rw [hitems]
      apply MemStore.indexedBut_append _ _ _ _ hbut
      intro _
      simp [NewPartitionKey, NewPartitionKeyString, ToLower_idem]
    rcases MemStore.upsert_cases (ToLower subscriptionID) s1 with
      ⟨err, hu⟩ | ⟨s2, hu, f, hf, hshape, hentry⟩
    · simp only [hu]
      refine ⟨fun h => by simp at h, fun h => ?_⟩
      exact absurd (by simp) (h (ToLower subscriptionID) err)
    · simp only [hu]
      have hbut2 : MemStore.indexedBut (ToLower subscriptionID) s2.items := by
        rcases hshape with h2 | h2
        · rw [h2]
          exact MemStore.indexedBut_map _ _ f hf hbut1
        · rw [h2]
          exact MemStore.indexedBut_append _ _ _ (fun h => by simp at h)
            (MemStore.indexedBut_map _ _ f hf hbut1)
      have := MemStore.indexed_of_indexedBut _ s2 hbut2 hentry
      exact ⟨fun _ => this, fun _ => this⟩

end Create

/-! ## The properties at concrete inputs -/

/-- C1 at a concrete store: the callback declines and the store is what it was. -/
theorem update_noop_when_callback_declines_witness :
    UpdateResourceDoc memClient memJSON demoID (fun doc => (false, doc)) ⟨demoStore, []⟩
      = ((false, none), ⟨demoStore, [GetResourceDoc.event memClient demoID, Event.callback]⟩) ∧
    UpdateOperationDoc memClient memJSON "OP-1" (fun doc => (false, doc)) ⟨demoStore, []⟩
      = ((false, none), ⟨demoStore, [GetOperationDoc.event memClient "OP-1", Event.callback]⟩) ∧
    UpdateSubscriptionDoc memClient memJSON "6B1D" (fun doc => (false, doc)) ⟨demoStore, []⟩
      = ((false, none),
        ⟨demoStore, [GetSubscriptionDoc.event memClient "6B1D", Event.callback]⟩) :=
  ⟨(update_noop_when_callback_declines memClient memJSON ⟨demoStore, []⟩).1 demoID
      (fun doc => (false, doc)) ⟨"doc-1", 7, demoID, "6b1d", [("state", "new")]⟩ (by rfl) rfl,
    (update_noop_when_callback_declines memClient memJSON ⟨demoStore, []⟩).2.1 "OP-1"
      (fun doc => (false, doc)) ⟨"op-1", 3, []⟩ (by rfl) rfl,
    (update_noop_when_callback_declines memClient memJSON ⟨demoStore, []⟩).2.2 "6B1D"
      (fun doc => (false, doc)) ⟨"6b1d", 5, []⟩ (by rfl) rfl⟩

/-- C2 at a store under permanent contention: five attempts, then the wrapped
precondition failure; and the same outcome on the in-memory store when another
writer gets in before each of the five replace calls. -/
theorem update_gives_up_after_five_attempts_witness :
    (UpdateOperationDoc contendedClient memJSON "OP-1" (fun doc => (true, doc)) ⟨0, []⟩).1.1
      = false ∧
    (UpdateOperationDoc contendedClient memJSON "OP-1" (fun doc => (true, doc))
      ⟨0, []⟩).2.trace.countP Event.isReplace = 5 ∧
    (UpdateOperationDoc contendedClient memJSON "OP-1" (fun doc => (true, doc))
      ⟨0, []⟩).2.trace.length = 15 ∧
    (UpdateOperationDoc memClient memJSON "OP-1" (fun doc => (true, doc)) ⟨busyStore, []⟩).1
      = (false, some (.Errorf "failed to replace Operations container item for" "OP-1"
          (.sdk (.ResponseError 412)))) ∧
    (UpdateOperationDoc memClient memJSON "OP-1" (fun doc => (true, doc))
      ⟨busyStore, []⟩).2.trace.countP Event.isReplace = 5 ∧
    (UpdateOperationDoc memClient memJSON "OP-1" (fun doc => (true, doc))
      ⟨busyStore, []⟩).2.trace.length = 15 := by
  have h := (update_gives_up_after_five_attempts contendedClient memJSON).2.1 "OP-1"
    (fun doc => (true, doc)) ⟨0, []⟩ (fun _ => ⟨_, rfl⟩) (fun _ => rfl) (fun _ => ⟨_, rfl⟩)
    (fun _ _ _ _ _ => ⟨_, rfl, rfl⟩)
  exact ⟨h.1, by simpa using h.2.2.2.1, by simpa using h.2.2.2.2.1, by decide, by decide,
    by decide⟩

/-- C4 at concrete stores: a transport failure of the fetch, an absent
document, a document that cannot be encoded, and a transport failure of the
replace. -/
theorem update_fails_fast_on_other_errors_witness :
    UpdateOperationDoc memClient memJSON "OP-1" (fun doc => (true, doc))
      ⟨⟨demoStore.items, 8, [.fail (.other "connection reset")]⟩, []⟩
        = ((false, some (.Errorf "failed to read Operations container item for" "op-1"
            (.sdk (.other "connection reset")))),
          ⟨⟨demoStore.items, 8, []⟩, [GetOperationDoc.event memClient "OP-1"]⟩) ∧
    UpdateOperationDoc memClient memJSON "OP-2" (fun doc => (true, doc)) ⟨demoStore, []⟩
        = ((false, some (.Errorf "failed to read Operations container item for" "op-2"
            .ErrNotFound)),
          ⟨demoStore, [GetOperationDoc.event memClient "OP-2"]⟩) ∧
    (UpdateOperationDoc memClient brokenJSON "OP-1" (fun doc => (true, doc))
      ⟨demoStore, []⟩).1
        = (false, some (.Errorf "failed to marshal Operations container item for" "OP-1"
            (.sdk (.other "json: unsupported value")))) ∧
    (UpdateOperationDoc memClient brokenJSON "OP-1" (fun doc => (true, doc))
      ⟨demoStore, []⟩).2.trace
        = [GetOperationDoc.event memClient "OP-1", Event.callback] ∧
    (UpdateOperationDoc memClient memJSON "OP-1" (fun doc => (true, doc))
      ⟨⟨demoStore.items, 8, [.proceed, .fail (.other "timeout")]⟩, []⟩).1
        = (false, some (.Errorf "failed to replace Operations container item for" "OP-1"
            (.sdk (.other "timeout")))) ∧
    (UpdateOperationDoc memClient memJSON "OP-1" (fun doc => (true, doc))
      ⟨⟨demoStore.items, 8, [.proceed, .fail (.other "timeout")]⟩, []⟩).2.trace
        = [GetOperationDoc.event memClient "OP-1", Event.callback,
            Event.ReplaceItem .Operations ⟨"workaround"⟩ "op-1" (.operation ⟨"op-1", 3, []⟩)
              ⟨some 3⟩ (some (.other "timeout"))] := by
  have h := (update_fails_fast_on_other_errors memClient memJSON).2.1
  have h3 := (h "OP-1" (fun doc => (true, doc)) (NewPartitionKey operationsPartitionKey) 4 none
    ⟨⟨demoStore.items, 8, [.proceed, .fail (.other "timeout")]⟩, []⟩).2.2
    ⟨"op-1", 3, []⟩ (.operation ⟨"op-1", 3, []⟩) (.other "timeout") (by rfl) rfl rfl (by rfl)
    (by decide)
  have h2 := ((update_fails_fast_on_other_errors memClient brokenJSON).2.1 "OP-1"
    (fun doc => (true, doc)) (NewPartitionKey operationsPartitionKey) 4 none
    ⟨demoStore, []⟩).2.1 ⟨"op-1", 3, []⟩ (.other "json: unsupported value") (by rfl) rfl rfl
  exact ⟨by rfl, by rfl, h2.1, h2.2, h3.1, h3.2⟩

/-- C5 at a concrete store: read with the request's casing. -/
theorem GetResourceDoc_preserves_casing_witness :
    (GetResourceDoc memClient memJSON demoID ⟨demoStore, []⟩).1
      = .ok ⟨"doc-1", 7, demoID, "6b1d", [("state", "new")]⟩ :=
  (GetResourceDoc_preserves_casing memClient memJSON demoID ⟨demoStore, []⟩
    [[.resource demoDoc]] (.resource demoDoc) demoDoc (by rfl) rfl rfl).1

/-- C6 at concrete stores: an absent operation and a wrapped 404 are reported
with `ErrNotFound`; a 500, a 429 and a transport failure are not. -/
theorem get_reports_not_found_iff_witness :
    reportsNotFound (GetOperationDoc memClient memJSON "OP-2" ⟨demoStore, []⟩).1 = true ∧
    reportsNotFound (GetOperationDoc memClient memJSON "OP-1"
      ⟨⟨demoStore.items, 8, [.fail (.wrapping "read" (.ResponseError 404))]⟩, []⟩).1 = true ∧
    reportsNotFound (GetOperationDoc memClient memJSON "OP-1"
      ⟨⟨demoStore.items, 8, [.fail (.ResponseError 500)]⟩, []⟩).1 = false ∧
    reportsNotFound (GetSubscriptionDoc memClient memJSON "6B1D"
      ⟨⟨demoStore.items, 8, [.fail (.ResponseError 429)]⟩, []⟩).1 = false ∧
    reportsNotFound (GetOperationDoc memClient memJSON "OP-1"
      ⟨⟨demoStore.items, 8, [.fail (.other "connection reset")]⟩, []⟩).1 = false ∧
    ¬ reportsNotFound (GetOperationDoc memClient memJSON "OP-1"
      ⟨⟨demoStore.items, 8, [.fail (.ResponseError 500)]⟩, []⟩).1 = true :=
  ⟨((get_reports_not_found_iff memClient memJSON ⟨demoStore, []⟩).2.1 "OP-2").mpr
      ⟨.ResponseError 404, by rfl, by rfl⟩,
    by rfl, by rfl, by rfl, by rfl,
    fun h => by
      obtain ⟨err, hread, h404⟩ := ((get_reports_not_found_iff memClient memJSON
        ⟨⟨demoStore.items, 8, [.fail (.ResponseError 500)]⟩, []⟩).2.1 "OP-1").mp h
      have herr : err = .ResponseError 500 := by
        have hread2 : (Except.error (SdkError.ResponseError 500) : Except SdkError Payload)
            = .error err := hread
        cases hread2
        rfl
      subst herr
      simp [SdkError.asResponseError] at h404⟩

/-- C7 at a concrete store that holds no document for the identifier. -/
theorem DeleteResourceDoc_of_absent_witness :
    DeleteResourceDoc memClient memJSON ⟨"6B1D", "/subscriptions/6B1D/resourceGroups/none"⟩
        ⟨demoStore, []⟩
      = (none, ⟨demoStore, [GetResourceDoc.event memClient
          ⟨"6B1D", "/subscriptions/6B1D/resourceGroups/none"⟩]⟩) :=
  (DeleteResourceDoc_of_absent memClient memJSON
    ⟨"6B1D", "/subscriptions/6B1D/resourceGroups/none"⟩ ⟨demoStore, []⟩).1 [[]] (by rfl) rfl

/-- C8, the claim as stated fails: `CreateResourceDoc` hands the store a
document id that is not lower-case. -/
theorem create_keeps_document_id_casing :
    ∃ c pk data err,
      Event.CreateItem c pk data err
        ∈ (CreateResourceDoc memClient memJSON ⟨"DOC-1", 0, demoID, "6B1D", []⟩
            ⟨⟨[], 1, []⟩, []⟩).2.trace ∧
      isLower data.id = false :=
  ⟨.Resources, ⟨"6b1d"⟩, .resource ⟨"DOC-1", 0, demoID, "6b1d", []⟩, none,
    by simp [CreateResourceDoc, memJSON, ContainerClient.createItem, memClient,
      MemStore.container, MemStore.CreateItem, MemStore.arrive, MemStore.find]; decide,
    by decide⟩

/-- C8 at a concrete input: the partition key ÀB-6B1D is lower-cased in the
payload and in the call, the id and the resource identifier are kept. -/
theorem create_persists_lower_case_keys_witness :
    (CreateResourceDoc memClient memJSON ⟨"DOC-1", 0, demoID, "ÀB-6B1D", []⟩
      ⟨⟨[], 1, []⟩, []⟩).2.trace
      = [Event.CreateItem .Resources ⟨"àb-6b1d"⟩
          (.resource ⟨"DOC-1", 0, demoID, "àb-6b1d", []⟩) none] ∧
    (CreateResourceDoc memClient memJSON ⟨"DOC-1", 0, demoID, "ÀB-6B1D", []⟩
      ⟨⟨[], 1, []⟩, []⟩).2.state.items
      = [⟨.Resources, ⟨"àb-6b1d"⟩, .resource ⟨"DOC-1", 1, demoID, "àb-6b1d", []⟩⟩] ∧
    isLower "àb-6b1d" = true ∧ isLower "ÀB-6B1D" = false :=
  ⟨(((create_persists_lower_case_keys memClient memJSON ⟨[], 1, []⟩).1
      ⟨"DOC-1", 0, demoID, "ÀB-6B1D", []⟩).2.2.1
      (.resource ⟨"DOC-1", 0, demoID, "àb-6b1d", []⟩) (by rfl)).1.trans (by rfl),
    by rfl, by decide, by decide⟩

/-- C9, the claim as stated fails: when the index upsert fails, the new
SubscriptionDocument is left without a PartitionIndexEntry. -/
theorem CreateSubscriptionDoc_breaks_index_when_upsert_fails :
    MemStore.indexed ⟨[], 1, [.proceed, .fail (.other "timeout")]⟩ = true ∧
    (CreateSubscriptionDoc memClient memJSON "SUB-1" ⟨"", 0, []⟩
      ⟨⟨[], 1, [.proceed, .fail (.other "timeout")]⟩, []⟩).1.1
        = some (.Errorf "failed to upsert partition keys index for" "sub-1"
            (.sdk (.other "timeout"))) ∧
    (CreateSubscriptionDoc memClient memJSON "SUB-1" ⟨"", 0, []⟩
      ⟨⟨[], 1, [.proceed, .fail (.other "timeout")]⟩, []⟩).2.state.items
        = [⟨.Subscriptions, ⟨"sub-1"⟩, .subscription ⟨"sub-1", 1, []⟩⟩] ∧
    (CreateSubscriptionDoc memClient memJSON "SUB-1" ⟨"", 0, []⟩
      ⟨⟨[], 1, [.proceed, .fail (.other "timeout")]⟩, []⟩).2.state.indexed = false := by
  decide

/-- C9 at a concrete store: a subscription is created and indexed. -/
theorem CreateSubscriptionDoc_keeps_index_witness :
    demoStore.indexed = true ∧
    (CreateSubscriptionDoc memClient memJSON "SUB-1" ⟨"", 0, []⟩ ⟨demoStore, []⟩).1.1 = none ∧
    (CreateSubscriptionDoc memClient memJSON "SUB-1" ⟨"", 0, []⟩
      ⟨demoStore, []⟩).2.state.indexed = true :=
  ⟨by decide, by decide,
    (CreateSubscriptionDoc_keeps_index demoStore "SUB-1" ⟨"", 0, []⟩ (by decide)).1
      (by decide)⟩

/-! ## Listing -/

section List

variable {σ B : Type}

/-- C11. For every `maxItems`, `ListResourceDocs` issues its query with page-size
hint `max(maxItems, -1)`: every negative value becomes exactly -1 and every
non-negative value is passed unchanged.  It returns the single-page iterator
exactly when `maxItems` is positive and the full-drain iterator otherwise, in
particular for every negative value, in both cases over the pager of that
query.  The `@prefix` parameter is the identifier's string followed by "/". -/
theorem ListResourceDocs_page_size_and_mode (d : cosmosDBClient σ B) (prefixID : ResourceID)
    (maxItems : Int) (continuationToken : Option String) (w : World σ B) :
    (ListResourceDocs d prefixID maxItems continuationToken w).2.trace
      = w.trace ++ [Event.NewQueryItemsPager d.resources.id ListResourceDocs.query
          (NewPartitionKey prefixID.SubscriptionID)
          ⟨max maxItems (-1), continuationToken, [("@prefix", prefixID.String ++ "/")]⟩] ∧
    (maxItems < 0 → max maxItems (-1) = -1) ∧
    (0 ≤ maxItems → max maxItems (-1) = maxItems) ∧
    ((∃ pager, (ListResourceDocs d prefixID maxItems continuationToken w).1
        = .newQueryItemsSinglePageIterator pager) ↔ 0 < maxItems) ∧
    (maxItems < 0 → ∃ pager, (ListResourceDocs d prefixID maxItems continuationToken w).1
        = .newQueryItemsIterator pager) ∧
    (ListResourceDocs d prefixID maxItems continuationToken w).1
      = (if 0 < maxItems then DBClientIterator.newQueryItemsSinglePageIterator
          else DBClientIterator.newQueryItemsIterator)
        (d.resources.NewQueryItemsPager ListResourceDocs.query
          (NewPartitionKey prefixID.SubscriptionID)
          ⟨max maxItems (-1), continuationToken, [("@prefix", prefixID.String ++ "/")]⟩
          w.state).1 := by
  have hpos : max maxItems (-1) > 0 ↔ 0 < maxItems := by
    constructor
    · intro h
      rcases le_total maxItems (-1) with h1 | h1
      · rw [max_eq_right h1] at h
        omega
      · rw [max_eq_left h1] at h
        exact h
    · intro h
      rw [max_eq_left (by omega)]
      exact h
  refine ⟨?_, fun h => max_eq_right (by omega), fun h => max_eq_left (by omega), ?_, ?_, ?_⟩
  · simp only [ListResourceDocs, ContainerClient.queryItems]
    split <;> rfl
  · simp only [ListResourceDocs, ContainerClient.queryItems]
    by_cases h : 0 < maxItems
    · simp [hpos.mpr h, h]
    · have h2 : ¬ max maxItems (-1) > 0 := fun hc => h (hpos.mp hc)
      simp [h2, h]
  · intro h
    have h2 : ¬ max maxItems (-1) > 0 := fun hc => by have := hpos.mp hc; omega
    simp only [ListResourceDocs, ContainerClient.queryItems, h2, if_false]
    exact ⟨_, rfl⟩
  · simp only [ListResourceDocs, ContainerClient.queryItems]
    by_cases h : 0 < maxItems
    · simp [hpos.mpr h, h]
    · have h2 : ¬ max maxItems (-1) > 0 := fun hc => h (hpos.mp hc)
      simp [h2, h]

/-- C11 at concrete inputs: hints -7, 0 and 10. -/
theorem ListResourceDocs_page_size_and_mode_witness :
    ListResourceDocs memClient demoID (-7) none ⟨demoStore, []⟩
      = (.newQueryItemsIterator [.ok []],
          ⟨demoStore, [Event.NewQueryItemsPager .Resources ListResourceDocs.query ⟨"6b1d"⟩
            ⟨-1, none, [("@prefix", "/subscriptions/6B1D/resourceGroups/RG/")]⟩]⟩) ∧
    ListResourceDocs memClient demoID 0 none ⟨demoStore, []⟩
      = (.newQueryItemsIterator [.ok []],
          ⟨demoStore, [Event.NewQueryItemsPager .Resources ListResourceDocs.query ⟨"6b1d"⟩
            ⟨0, none, [("@prefix", "/subscriptions/6B1D/resourceGroups/RG/")]⟩]⟩) ∧
    ListResourceDocs memClient demoID 10 (some "token") ⟨demoStore, []⟩
      = (.newQueryItemsSinglePageIterator [.ok []],
          ⟨demoStore, [Event.NewQueryItemsPager .Resources ListResourceDocs.query ⟨"6b1d"⟩
            ⟨10, some "token", [("@prefix", "/subscriptions/6B1D/resourceGroups/RG/")]⟩]⟩) ∧
    ((ListResourceDocs memClient demoID 10 (some "token") ⟨demoStore, []⟩).2.trace
      = [Event.NewQueryItemsPager .Resources ListResourceDocs.query ⟨"6b1d"⟩
          ⟨10, some "token", [("@prefix", "/subscriptions/6B1D/resourceGroups/RG/")]⟩]) :=
  ⟨by rfl, by rfl, by rfl,
    (ListResourceDocs_page_size_and_mode memClient demoID 10 (some "token")
      ⟨demoStore, []⟩).1.trans (by rfl)⟩

end List

/-! ## The precondition of the conditional replace -/

section Precondition

variable {σ B : Type}

theorem UpdateOperationDoc_loop_attempt (d : cosmosDBClient σ B) (J : JSON B)
    (operationID : String) (callback : OperationDocument → Bool × OperationDocument)
    (pk : PartitionKey) (tries : Nat) (err0 : Option GoError) (w w1 : World σ B)
    (doc doc2 : OperationDocument) (data : B) (err : Option SdkError) (s2 : σ)
    (hfetch : GetOperationDoc d J operationID w = (.ok doc, w1))
    (hcb : callback doc = (true, doc2))
    (hdata : J.MarshalOperation doc2 = .ok data)
    (hreplace : d.operations.ReplaceItem pk doc2.ID data ⟨some doc2.CosmosETag⟩ w1.state
      = (err, s2)) :
    UpdateOperationDoc.loop d J operationID callback pk (tries + 1) err0 w
      = match err with
        | none =>
          ((true, none),
            ⟨s2, w1.trace ++ [Event.callback,
              Event.ReplaceItem d.operations.id pk doc2.ID data ⟨some doc2.CosmosETag⟩ none]⟩)
        | some e =>
          if e.asResponseError ≠ some StatusPreconditionFailed then
            ((false, some (.Errorf "failed to replace Operations container item for" operationID
              (.sdk e))),
              ⟨s2, w1.trace ++ [Event.callback,
                Event.ReplaceItem d.operations.id pk doc2.ID data ⟨some doc2.CosmosETag⟩
                  (some e)]⟩)
          else
            UpdateOperationDoc.loop d J operationID callback pk tries
              (some (.Errorf "failed to replace Operations container item for" operationID
                (.sdk e)))
              ⟨s2, w1.trace ++ [Event.callback,
                Event.ReplaceItem d.operations.id pk doc2.ID data ⟨some doc2.CosmosETag⟩
                  (some e)]⟩ := by
  cases err with
  | none =>
    simp [UpdateOperationDoc.loop, hfetch, hcb, hdata, ContainerClient.replaceItem,
      World.invoked, hreplace]
  | some e =>
    simp [UpdateOperationDoc.loop, hfetch, hcb, hdata, ContainerClient.replaceItem,
      World.invoked, hreplace, GoError.asResponseError]

theorem UpdateSubscriptionDoc_loop_attempt (d : cosmosDBClient σ B) (J : JSON B)
    (subscriptionID : String) (callback : SubscriptionDocument → Bool × SubscriptionDocument)
    (pk : PartitionKey) (tries : Nat) (err0 : Option GoError) (w w1 : World σ B)
    (doc doc2 : SubscriptionDocument) (data : B) (err : Option SdkError) (s2 : σ)
    (hfetch : GetSubscriptionDoc d J subscriptionID w = (.ok doc, w1))
    (hcb : callback doc = (true, doc2))
    (hdata : J.MarshalSubscription doc2 = .ok data)
    (hreplace : d.subscriptions.ReplaceItem pk doc2.ID data ⟨some doc2.CosmosETag⟩ w1.state
      = (err, s2)) :
    UpdateSubscriptionDoc.loop d J subscriptionID callback pk (tries + 1) err0 w
      = match err with
        | none =>
          ((true, none),
            ⟨s2, w1.trace ++ [Event.callback,
              Event.ReplaceItem d.subscriptions.id pk doc2.ID data ⟨some doc2.CosmosETag⟩ none]⟩)
        | some e =>
          if e.asResponseError ≠ some StatusPreconditionFailed then
            ((false, some (.Errorf "failed to replace Subscriptions container item for" subscriptionID
              (.sdk e))),
              ⟨s2, w1.trace ++ [Event.callback,
                Event.ReplaceItem d.subscriptions.id pk doc2.ID data ⟨some doc2.CosmosETag⟩
                  (some e)]⟩)
          else
            UpdateSubscriptionDoc.loop d J subscriptionID callback pk tries
              (some (.Errorf "failed to replace Subscriptions container item for" subscriptionID
                (.sdk e)))
              ⟨s2, w1.trace ++ [Event.callback,
                Event.ReplaceItem d.subscriptions.id pk doc2.ID data ⟨some doc2.CosmosETag⟩
                  (some e)]⟩ := by
  cases err with
  | none =>
    simp [UpdateSubscriptionDoc.loop, hfetch, hcb, hdata, ContainerClient.replaceItem,
      World.invoked, hreplace]
  | some e =>
    simp [UpdateSubscriptionDoc.loop, hfetch, hcb, hdata, ContainerClient.replaceItem,
      World.invoked, hreplace, GoError.asResponseError]

theorem UpdateResourceDoc_loop_trace (d : cosmosDBClient σ B) (J : JSON B)
    (r : ResourceID) (callback : ResourceDocument → Bool × ResourceDocument)
    (pk : PartitionKey) :
    ∀ (tries : Nat) (err0 : Option GoError) (w : World σ B),
      ∃ more, (UpdateResourceDoc.loop d J r callback pk tries err0 w).2.trace
        = w.trace ++ more := by
  intro tries
  induction tries with
  | zero => intro err0 w; exact ⟨[], by simp [UpdateResourceDoc.loop]⟩
  | succ n ih =>
    intro err0 w
    have htrace := GetResourceDoc_trace d J r w
    rcases hg : GetResourceDoc d J r w with ⟨res, w1⟩
    rw [hg] at htrace
    simp only at htrace
    cases res with
    | error e => exact ⟨[GetResourceDoc.event d r], by simp [UpdateResourceDoc.loop, hg, htrace]⟩
    | ok doc =>
      rcases hc : callback doc with ⟨changed, doc2⟩
      cases changed with
      | false =>
        exact ⟨[GetResourceDoc.event d r, Event.callback],
          by simp [UpdateResourceDoc.loop, hg, hc, World.invoked, htrace]⟩
      | true =>
        cases hm : J.MarshalResource doc2 with
        | error e =>
          exact ⟨[GetResourceDoc.event d r, Event.callback],
            by simp [UpdateResourceDoc.loop, hg, hc, hm, World.invoked, htrace]⟩
        | ok data =>
          rcases hr : d.resources.ReplaceItem pk doc2.ID data ⟨some doc2.CosmosETag⟩ w1.state
            with ⟨err, s2⟩
          rw [UpdateResourceDoc.loop_attempt d J r callback pk n err0 w w1 doc doc2 data err s2
            hg hc hm hr]
          cases err with
          | none =>
            exact ⟨[GetResourceDoc.event d r, Event.callback,
              Event.ReplaceItem d.resources.id pk doc2.ID data ⟨some doc2.CosmosETag⟩ none], by simp [htrace]⟩
          | some e =>
            by_cases h412 : e.asResponseError ≠ some StatusPreconditionFailed
            · exact ⟨[GetResourceDoc.event d r, Event.callback,
                Event.ReplaceItem d.resources.id pk doc2.ID data ⟨some doc2.CosmosETag⟩ (some e)], by simp [h412, htrace]⟩
            · obtain ⟨more, hmore⟩ := ih
                (some (.Errorf "failed to replace Resources container item for" r.String
                  (.sdk e)))
                ⟨s2, w1.trace ++ [Event.callback,
                  Event.ReplaceItem d.resources.id pk doc2.ID data ⟨some doc2.CosmosETag⟩
                    (some e)]⟩
              simp only [h412, if_false]
              rw [hmore, htrace]
              exact ⟨[GetResourceDoc.event d r, Event.callback,
                Event.ReplaceItem d.resources.id pk doc2.ID data ⟨some doc2.CosmosETag⟩ (some e)] ++ more, by simp⟩

theorem UpdateResourceDoc_loop_sends (d : cosmosDBClient σ B) (J : JSON B)
    (r : ResourceID) (callback : ResourceDocument → Bool × ResourceDocument)
    (pk : PartitionKey) (tries : Nat) (err0 : Option GoError) (w : World σ B)
    (doc doc2 : ResourceDocument) (data : B)
    (hfetch : (GetResourceDoc d J r w).1 = .ok doc)
    (hcb : callback doc = (true, doc2))
    (hdata : J.MarshalResource doc2 = .ok data) :
    ∃ err more, (UpdateResourceDoc.loop d J r callback pk (tries + 1) err0 w).2.trace
      = w.trace ++ [GetResourceDoc.event d r, Event.callback,
          Event.ReplaceItem d.resources.id pk doc2.ID data ⟨some doc2.CosmosETag⟩ err]
        ++ more := by
  have htrace := GetResourceDoc_trace d J r w
  rcases hg : GetResourceDoc d J r w with ⟨res, w1⟩
  rw [hg] at htrace hfetch
  simp only at htrace hfetch
  subst hfetch
  rcases hr : d.resources.ReplaceItem pk doc2.ID data ⟨some doc2.CosmosETag⟩ w1.state
    with ⟨err, s2⟩
  rw [UpdateResourceDoc.loop_attempt d J r callback pk tries err0 w w1 doc doc2 data err s2
    hg hcb hdata hr]
  refine ⟨err, ?_⟩
  cases err with
  | none => exact ⟨[], by simp [htrace]⟩
  | some e =>
    by_cases h412 : e.asResponseError ≠ some StatusPreconditionFailed
    · exact ⟨[], by simp [h412, htrace]⟩
    · obtain ⟨more, hmore⟩ := UpdateResourceDoc_loop_trace d J r callback pk tries
        (some (.Errorf "failed to replace Resources container item for" r.String (.sdk e)))
        ⟨s2, w1.trace ++ [Event.callback,
          Event.ReplaceItem d.resources.id pk doc2.ID data ⟨some doc2.CosmosETag⟩ (some e)]⟩
      simp only [h412, if_false]
      rw [hmore, htrace]
      exact ⟨more, by simp⟩

theorem UpdateOperationDoc_loop_trace (d : cosmosDBClient σ B) (J : JSON B)
    (operationID : String) (callback : OperationDocument → Bool × OperationDocument)
    (pk : PartitionKey) :
    ∀ (tries : Nat) (err0 : Option GoError) (w : World σ B),
      ∃ more, (UpdateOperationDoc.loop d J operationID callback pk tries err0 w).2.trace
        = w.trace ++ more := by
  intro tries
  induction tries with
  | zero => intro err0 w; exact ⟨[], by simp [UpdateOperationDoc.loop]⟩
  | succ n ih =>
    intro err0 w
    have htrace := GetOperationDoc_trace d J operationID w
    rcases hg : GetOperationDoc d J operationID w with ⟨res, w1⟩
    rw [hg] at htrace
    simp only at htrace
    cases res with
    | error e => exact ⟨[GetOperationDoc.event d operationID], by simp [UpdateOperationDoc.loop, hg, htrace]⟩
    | ok doc =>
      rcases hc : callback doc with ⟨changed, doc2⟩
      cases changed with
      | false =>
        exact ⟨[GetOperationDoc.event d operationID, Event.callback],
          by simp [UpdateOperationDoc.loop, hg, hc, World.invoked, htrace]⟩
      | true =>
        cases hm : J.MarshalOperation doc2 with
        | error e =>
          exact ⟨[GetOperationDoc.event d operationID, Event.callback],
            by simp [UpdateOperationDoc.loop, hg, hc, hm, World.invoked, htrace]⟩
        | ok data =>
          rcases hr : d.operations.ReplaceItem pk doc2.ID data ⟨some doc2.CosmosETag⟩ w1.state
            with ⟨err, s2⟩
          rw [UpdateOperationDoc_loop_attempt d J operationID callback pk n err0 w w1 doc doc2 data err s2
            hg hc hm hr]
          cases err with
          | none =>
            exact ⟨[GetOperationDoc.event d operationID, Event.callback,
              Event.ReplaceItem d.operations.id pk doc2.ID data ⟨some doc2.CosmosETag⟩ none], by simp [htrace]⟩
          | some e =>
            by_cases h412 : e.asResponseError ≠ some StatusPreconditionFailed
            · exact ⟨[GetOperationDoc.event d operationID, Event.callback,
                Event.ReplaceItem d.operations.id pk doc2.ID data ⟨some doc2.CosmosETag⟩ (some e)], by simp [h412, htrace]⟩
            · obtain ⟨more, hmore⟩ := ih
                (some (.Errorf "failed to replace Operations container item for" operationID
                  (.sdk e)))
                ⟨s2, w1.trace ++ [Event.callback,
                  Event.ReplaceItem d.operations.id pk doc2.ID data ⟨some doc2.CosmosETag⟩
                    (some e)]⟩
              simp only [h412, if_false]
              rw [hmore, htrace]
              exact ⟨[GetOperationDoc.event d operationID, Event.callback,
                Event.ReplaceItem d.operations.id pk doc2.ID data ⟨some doc2.CosmosETag⟩ (some e)] ++ more, by simp⟩

theorem UpdateOperationDoc_loop_sends (d : cosmosDBClient σ B) (J : JSON B)
    (operationID : String) (callback : OperationDocument → Bool × OperationDocument)
    (pk : PartitionKey) (tries : Nat) (err0 : Option GoError) (w : World σ B)
    (doc doc2 : OperationDocument) (data : B)
    (hfetch : (GetOperationDoc d J operationID w).1 = .ok doc)
    (hcb : callback doc = (true, doc2))
    (hdata : J.MarshalOperation doc2 = .ok data) :
    ∃ err more, (UpdateOperationDoc.loop d J operationID callback pk (tries + 1) err0 w).2.trace
      = w.trace ++ [GetOperationDoc.event d operationID, Event.callback,
          Event.ReplaceItem d.operations.id pk doc2.ID data ⟨some doc2.CosmosETag⟩ err]
        ++ more := by
  have htrace := GetOperationDoc_trace d J operationID w
  rcases hg : GetOperationDoc d J operationID w with ⟨res, w1⟩
  rw [hg] at htrace hfetch
  simp only at htrace hfetch
  subst hfetch
  rcases hr : d.operations.ReplaceItem pk doc2.ID data ⟨some doc2.CosmosETag⟩ w1.state
    with ⟨err, s2⟩
  rw [UpdateOperationDoc_loop_attempt d J operationID callback pk tries err0 w w1 doc doc2 data err s2
    hg hcb hdata hr]
  refine ⟨err, ?_⟩
  cases err with
  | none => exact ⟨[], by simp [htrace]⟩
  | some e =>
    by_cases h412 : e.asResponseError ≠ some StatusPreconditionFailed
    · exact ⟨[], by simp [h412, htrace]⟩
    · obtain ⟨more, hmore⟩ := UpdateOperationDoc_loop_trace d J operationID callback pk tries
        (some (.Errorf "failed to replace Operations container item for" operationID (.sdk e)))
        ⟨s2, w1.trace ++ [Event.callback,
          Event.ReplaceItem d.operations.id pk doc2.ID data ⟨some doc2.CosmosETag⟩ (some e)]⟩
      simp only [h412, if_false]
      rw [hmore, htrace]
      exact ⟨more, by simp⟩

theorem UpdateSubscriptionDoc_loop_trace (d : cosmosDBClient σ B) (J : JSON B)
    (subscriptionID : String) (callback : SubscriptionDocument → Bool × SubscriptionDocument)
    (pk : PartitionKey) :
    ∀ (tries : Nat) (err0 : Option GoError) (w : World σ B),
      ∃ more, (UpdateSubscriptionDoc.loop d J subscriptionID callback pk tries err0 w).2.trace
        = w.trace ++ more := by
  intro tries
  induction tries with
  | zero => intro err0 w; exact ⟨[], by simp [UpdateSubscriptionDoc.loop]⟩
  | succ n ih =>
    intro err0 w
    have htrace := GetSubscriptionDoc_trace d J subscriptionID w
    rcases hg : GetSubscriptionDoc d J subscriptionID w with ⟨res, w1⟩
    rw [hg] at htrace
    simp only at htrace
    cases res with
    | error e => exact ⟨[GetSubscriptionDoc.event d subscriptionID], by simp [UpdateSubscriptionDoc.loop, hg, htrace]⟩
    | ok doc =>
      rcases hc : callback doc with ⟨changed, doc2⟩
      cases changed with
      | false =>
        exact ⟨[GetSubscriptionDoc.event d subscriptionID, Event.callback],
          by simp [UpdateSubscriptionDoc.loop, hg, hc, World.invoked, htrace]⟩
      | true =>
        cases hm : J.MarshalSubscription doc2 with
        | error e =>
          exact ⟨[GetSubscriptionDoc.event d subscriptionID, Event.callback],
            by simp [UpdateSubscriptionDoc.loop, hg, hc, hm, World.invoked, htrace]⟩
        | ok data =>
          rcases hr : d.subscriptions.ReplaceItem pk doc2.ID data ⟨some doc2.CosmosETag⟩ w1.state
            with ⟨err, s2⟩
          rw [UpdateSubscriptionDoc_loop_attempt d J subscriptionID callback pk n err0 w w1 doc doc2 data err s2
            hg hc hm hr]
          cases err with
          | none =>
            exact ⟨[GetSubscriptionDoc.event d subscriptionID, Event.callback,
              Event.ReplaceItem d.subscriptions.id pk doc2.ID data ⟨some doc2.CosmosETag⟩ none], by simp [htrace]⟩
          | some e =>
            by_cases h412 : e.asResponseError ≠ some StatusPreconditionFailed
            · exact ⟨[GetSubscriptionDoc.event d subscriptionID, Event.callback,
                Event.ReplaceItem d.subscriptions.id pk doc2.ID data ⟨some doc2.CosmosETag⟩ (some e)], by simp [h412, htrace]⟩
            · obtain ⟨more, hmore⟩ := ih
                (some (.Errorf "failed to replace Subscriptions container item for" subscriptionID
                  (.sdk e)))
                ⟨s2, w1.trace ++ [Event.callback,
                  Event.ReplaceItem d.subscriptions.id pk doc2.ID data ⟨some doc2.CosmosETag⟩
                    (some e)]⟩
              simp only [h412, if_false]
              rw [hmore, htrace]
              exact ⟨[GetSubscriptionDoc.event d subscriptionID, Event.callback,
                Event.ReplaceItem d.subscriptions.id pk doc2.ID data ⟨some doc2.CosmosETag⟩ (some e)] ++ more, by simp⟩

theorem UpdateSubscriptionDoc_loop_sends (d : cosmosDBClient σ B) (J : JSON B)
    (subscriptionID : String) (callback : SubscriptionDocument → Bool × SubscriptionDocument)
    (pk : PartitionKey) (tries : Nat) (err0 : Option GoError) (w : World σ B)
    (doc doc2 : SubscriptionDocument) (data : B)
    (hfetch : (GetSubscriptionDoc d J subscriptionID w).1 = .ok doc)
    (hcb : callback doc = (true, doc2))
    (hdata : J.MarshalSubscription doc2 = .ok data) :
    ∃ err more, (UpdateSubscriptionDoc.loop d J subscriptionID callback pk (tries + 1) err0 w).2.trace
      = w.trace ++ [GetSubscriptionDoc.event d subscriptionID, Event.callback,
          Event.ReplaceItem d.subscriptions.id pk doc2.ID data ⟨some doc2.CosmosETag⟩ err]
        ++ more := by
  have htrace := GetSubscriptionDoc_trace d J subscriptionID w
  rcases hg : GetSubscriptionDoc d J subscriptionID w with ⟨res, w1⟩
  rw [hg] at htrace hfetch
  simp only at htrace hfetch
  subst hfetch
  rcases hr : d.subscriptions.ReplaceItem pk doc2.ID data ⟨some doc2.CosmosETag⟩ w1.state
    with ⟨err, s2⟩
  rw [UpdateSubscriptionDoc_loop_attempt d J subscriptionID callback pk tries err0 w w1 doc doc2 data err s2
    hg hcb hdata hr]
  refine ⟨err, ?_⟩
  cases err with
  | none => exact ⟨[], by simp [htrace]⟩
  | some e =>
    by_cases h412 : e.asResponseError ≠ some StatusPreconditionFailed
    · exact ⟨[], by simp [h412, htrace]⟩
    · obtain ⟨more, hmore⟩ := UpdateSubscriptionDoc_loop_trace d J subscriptionID callback pk tries
        (some (.Errorf "failed to replace Subscriptions container item for" subscriptionID (.sdk e)))
        ⟨s2, w1.trace ++ [Event.callback,
          Event.ReplaceItem d.subscriptions.id pk doc2.ID data ⟨some doc2.CosmosETag⟩ (some e)]⟩
      simp only [h412, if_false]
      rw [hmore, htrace]
      exact ⟨more, by simp⟩

/-- C12, as the code has it. At every attempt of each of the three update loops
(whatever the tries left, the error of an earlier attempt and the world), when
the fetch succeeds, the callback returns true and the document is encoded, the
attempt makes one fetch, one callback invocation and one `ReplaceItem` call
whose `If-Match` precondition is the version-token field of that attempt's
document after the callback ran.  When the callback leaves the field alone,
that is the token read by the fetch of the same attempt. -/
theorem update_precondition_is_token_after_callback (d : cosmosDBClient σ B) (J : JSON B) :
    (∀ (r : ResourceID) (callback : ResourceDocument → Bool × ResourceDocument)
        (pk : PartitionKey) (tries : Nat) (err0 : Option GoError) (w : World σ B)
        (doc doc2 : ResourceDocument) (data : B),
      (GetResourceDoc d J r w).1 = .ok doc →
      callback doc = (true, doc2) →
      J.MarshalResource doc2 = .ok data →
      ∃ (options : ItemOptions) (err : Option SdkError) (more : List (Event B)),
        (UpdateResourceDoc.loop d J r callback pk (tries + 1) err0 w).2.trace
          = w.trace ++ [GetResourceDoc.event d r, Event.callback,
              Event.ReplaceItem d.resources.id pk doc2.ID data options err] ++ more ∧
        options.IfMatchEtag = some doc2.CosmosETag ∧
        (doc2.CosmosETag = doc.CosmosETag → options.IfMatchEtag = some doc.CosmosETag)) ∧
    (∀ (operationID : String) (callback : OperationDocument → Bool × OperationDocument)
        (pk : PartitionKey) (tries : Nat) (err0 : Option GoError) (w : World σ B)
        (doc doc2 : OperationDocument) (data : B),
      (GetOperationDoc d J operationID w).1 = .ok doc →
      callback doc = (true, doc2) →
      J.MarshalOperation doc2 = .ok data →
      ∃ (options : ItemOptions) (err : Option SdkError) (more : List (Event B)),
        (UpdateOperationDoc.loop d J operationID callback pk (tries + 1) err0 w).2.trace
          = w.trace ++ [GetOperationDoc.event d operationID, Event.callback,
              Event.ReplaceItem d.operations.id pk doc2.ID data options err] ++ more ∧
        options.IfMatchEtag = some doc2.CosmosETag ∧
        (doc2.CosmosETag = doc.CosmosETag → options.IfMatchEtag = some doc.CosmosETag)) ∧
    (∀ (subscriptionID : String) (callback : SubscriptionDocument → Bool × SubscriptionDocument)
        (pk : PartitionKey) (tries : Nat) (err0 : Option GoError) (w : World σ B)
        (doc doc2 : SubscriptionDocument) (data : B),
      (GetSubscriptionDoc d J subscriptionID w).1 = .ok doc →
      callback doc = (true, doc2) →
      J.MarshalSubscription doc2 = .ok data →
      ∃ (options : ItemOptions) (err : Option SdkError) (more : List (Event B)),
        (UpdateSubscriptionDoc.loop d J subscriptionID callback pk (tries + 1) err0 w).2.trace
          = w.trace ++ [GetSubscriptionDoc.event d subscriptionID, Event.callback,
              Event.ReplaceItem d.subscriptions.id pk doc2.ID data options err] ++ more ∧
        options.IfMatchEtag = some doc2.CosmosETag ∧
        (doc2.CosmosETag = doc.CosmosETag → options.IfMatchEtag = some doc.CosmosETag)) := by
  refine ⟨fun r callback pk tries err0 w doc doc2 data hfetch hcb hdata => ?_,
    fun operationID callback pk tries err0 w doc doc2 data hfetch hcb hdata => ?_,
    fun subscriptionID callback pk tries err0 w doc doc2 data hfetch hcb hdata => ?_⟩
  · obtain ⟨err, more, h⟩ := UpdateResourceDoc_loop_sends d J r callback pk tries err0 w
      doc doc2 data hfetch hcb hdata
    exact ⟨⟨some doc2.CosmosETag⟩, err, more, h, rfl, fun hkeep => by rw [hkeep]⟩
  · obtain ⟨err, more, h⟩ := UpdateOperationDoc_loop_sends d J operationID callback pk tries err0 w
      doc doc2 data hfetch hcb hdata
    exact ⟨⟨some doc2.CosmosETag⟩, err, more, h, rfl, fun hkeep => by rw [hkeep]⟩
  · obtain ⟨err, more, h⟩ := UpdateSubscriptionDoc_loop_sends d J subscriptionID callback pk tries err0 w
      doc doc2 data hfetch hcb hdata
    exact ⟨⟨some doc2.CosmosETag⟩, err, more, h, rfl, fun hkeep => by rw [hkeep]⟩

/-- C12 at a concrete store: the callback adds a member and leaves the token
alone, and the replace carries the token 3 that the fetch read. -/
theorem update_precondition_is_token_after_callback_witness :
    ∃ (options : ItemOptions) (err : Option SdkError) (more : List (Event Payload)),
      (UpdateOperationDoc memClient memJSON "op-1"
        (fun doc => (true, { doc with rest := ("status", "done") :: doc.rest }))
        ⟨demoStore, []⟩).2.trace
        = [] ++ [GetOperationDoc.event memClient "op-1", Event.callback,
            Event.ReplaceItem .Operations (NewPartitionKey operationsPartitionKey) "op-1"
              (.operation ⟨"op-1", 3, [("status", "done")]⟩) options err] ++ more ∧
      options.IfMatchEtag = some 3 := by
  obtain ⟨options, err, more, h1, _, h3⟩ :=
    (update_precondition_is_token_after_callback memClient memJSON).2.1 "op-1"
      (fun doc => (true, { doc with rest := ("status", "done") :: doc.rest }))
      (NewPartitionKey operationsPartitionKey) 4 none ⟨demoStore, []⟩
      ⟨"op-1", 3, []⟩ ⟨"op-1", 3, [("status", "done")]⟩
      (.operation ⟨"op-1", 3, [("status", "done")]⟩) (by rfl) rfl rfl
  exact ⟨options, err, more, h1, h3 rfl⟩

/-- C12, the claim as stated fails: the fetch reads version token 3, the
callback sets the field to 99, and the replace carries 99 as its precondition.
On a store nobody else writes to, every attempt is then refused. -/
theorem update_sends_token_edited_by_callback :
    (GetOperationDoc memClient memJSON "op-1" ⟨demoStore, []⟩).1 = .ok ⟨"op-1", 3, []⟩ ∧
    (UpdateOperationDoc memClient memJSON "op-1"
      (fun doc => (true, { doc with CosmosETag := 99 })) ⟨demoStore, []⟩).2.trace.take 3
      = [GetOperationDoc.event memClient "op-1", Event.callback,
          Event.ReplaceItem .Operations ⟨"workaround"⟩ "op-1" (.operation ⟨"op-1", 99, []⟩)
            ⟨some 99⟩ (some (.ResponseError 412))] ∧
    (UpdateOperationDoc memClient memJSON "op-1"
      (fun doc => (true, { doc with CosmosETag := 99 })) ⟨demoStore, []⟩).1
      = (false, some (.Errorf "failed to replace Operations container item for" "op-1"
          (.sdk (.ResponseError 412)))) :=
  ⟨by rfl, by rfl, by rfl⟩

end Precondition

end Database
